import Mathlib

/-!
Verification of the tcsfw reconciliation core against its specification.

The development shallowly embeds the Python sources of `tcsfw` (entity graph,
inspector event processing, entity databases).  Modules of the repository that
are not part of the provided sources (`verdict.py`/`basics.py`, `model.py`,
`matcher.py`, `address.py`, `property.py`, `traffic.py`) are modelled from the
specification where a claim depends on them; each such definition carries a
doc comment starting with `Modelled from the spec:`.
-/

namespace Tcsfw

/-- Status enumeration of `verdict.py` (module not in the sources; the members
and their meaning are fixed by the spec §3 and by the uses in `entity.py`,
`inspector.py` and `main.py`). -/
inductive Status where
  | PLACEHOLDER
  | EXPECTED
  | UNEXPECTED
  | EXTERNAL
deriving DecidableEq, Repr

/-- Verdict enumeration of `basics.py`/`verdict.py` (module not in the
sources; members fixed by the spec §3: Undefined, Incon, Pass, Fail,
External, Ignore). -/
inductive Verdict where
  | UNDEFINED
  | INCON
  | PASS
  | FAIL
  | EXTERNAL
  | IGNORE
deriving DecidableEq, Repr

/-- Modelled from the spec: precedence rank of a verdict, from the governing
precedence table of §3: FAIL > EXTERNAL > PASS > INCON > IGNORE > UNDEFINED
(the source module `verdict.py`/`basics.py` holding `Verdict.resolve` is not
among the provided sources). -/
def Verdict.rank : Verdict → Nat
  | .UNDEFINED => 0
  | .IGNORE => 1
  | .INCON => 2
  | .PASS => 3
  | .EXTERNAL => 4
  | .FAIL => 5

/-- Modelled from the spec: `Verdict.resolve`, the total merge of two
verdicts used to fold child and property verdicts (§3); it keeps the verdict
of higher precedence. -/
def Verdict.resolve (a b : Verdict) : Verdict :=
  if Verdict.rank b ≤ Verdict.rank a then a else b

/-- Modelled from the spec: external-activity policy levels of a host,
ordered Banned < Passive < Open < Unlimited (§3, glossary). -/
inductive ExternalActivity where
  | BANNED
  | PASSIVE
  | OPEN
  | UNLIMITED
deriving DecidableEq, Repr

/-- Numeric level of an external-activity policy, for the order comparisons
performed in `inspector.py`. -/
def ExternalActivity.level : ExternalActivity → Nat
  | .BANNED => 0
  | .PASSIVE => 1
  | .OPEN => 2
  | .UNLIMITED => 3

/-- Modelled from the spec: protocol tag of a service or endpoint
(`address.py` is not among the provided sources). -/
inductive Protocol where
  | tcp
  | udp
  | eth
  | other (name : String)
deriving DecidableEq, Repr

/-- Modelled from the spec: a property key of `property.py` (not among the
provided sources): a name plus the "model-only" flag consulted by
`Inspector.property_update`. -/
structure PropKey where
  name : String
  model : Bool
deriving DecidableEq, Repr

/-- A value stored in an entity's property map.  `verdict` is a bare
`Verdict` member, as stored by `Entity.set_seen_now` (entity.py line 46);
`verdictValue` is a `PropertyVerdictValue` wrapper as produced by
`PropertyKey.verdict(...)` (property.py, modelled from the spec); `other`
stands for any non-verdict payload. -/
inductive PropValue where
  | verdict (v : Verdict)
  | verdictValue (v : Verdict)
  | other (n : Nat)
deriving DecidableEq, Repr

/-- Insertion-ordered association lists stand in for Python dictionaries
throughout the embedding.  `lookupA` is `d.get(k)`. -/
def lookupA {κ ν : Type} [DecidableEq κ] (m : List (κ × ν)) (k : κ) : Option ν :=
  match m with
  | [] => none
  | (k', v) :: t => if k' = k then some v else lookupA t k

/-- Dictionary assignment `d[k] = v`: replaces in place when the key exists,
appends otherwise (Python dictionaries preserve insertion order). -/
def updateA {κ ν : Type} [DecidableEq κ] (m : List (κ × ν)) (k : κ) (v : ν) : List (κ × ν) :=
  match m with
  | [] => [(k, v)]
  | (k', v') :: t => if k' = k then (k, v) :: t else (k', v') :: updateA t k v

@[simp] theorem lookupA_nil {κ ν : Type} [DecidableEq κ] (k : κ) :
    lookupA ([] : List (κ × ν)) k = none := rfl

@[simp] theorem lookupA_cons {κ ν : Type} [DecidableEq κ] (k' : κ) (v : ν)
    (t : List (κ × ν)) (k : κ) :
    lookupA ((k', v) :: t) k = if k' = k then some v else lookupA t k := rfl

@[simp] theorem updateA_nil {κ ν : Type} [DecidableEq κ] (k : κ) (v : ν) :
    updateA ([] : List (κ × ν)) k v = [(k, v)] := rfl

theorem lookupA_updateA {κ ν : Type} [DecidableEq κ] (m : List (κ × ν)) (k : κ) (v : ν) :
    lookupA (updateA m k v) k = some v := by
  induction m with
  | nil => simp [updateA]
  | cons h t ih =>
    obtain ⟨k', v'⟩ := h
    by_cases hk : k' = k
    · simp [updateA, hk]
    · simp [updateA, hk, ih]

theorem lookupA_updateA_ne {κ ν : Type} [DecidableEq κ] (m : List (κ × ν)) (k k₂ : κ) (v : ν)
    (h : k ≠ k₂) : lookupA (updateA m k v) k₂ = lookupA m k₂ := by
  induction m with
  | nil => simp [updateA, h]
  | cons hd t ih =>
    obtain ⟨k', v'⟩ := hd
    by_cases hk : k' = k
    · subst hk
      simp [updateA, h]
    · simp [updateA, hk, ih]

/-- Updating a key with the value it already holds leaves the map unchanged. -/
theorem updateA_self {κ ν : Type} [DecidableEq κ] (m : List (κ × ν)) (k : κ) (v : ν)
    (h : lookupA m k = some v) : updateA m k v = m := by
  induction m with
  | nil => simp [lookupA] at h
  | cons hd t ih =>
    obtain ⟨k', v'⟩ := hd
    by_cases hk : k' = k
    · subst hk
      simp [lookupA] at h
      simp [updateA, h]
    · simp [lookupA, hk] at h
      simp [updateA, hk, ih h]

/-- Property maps are insertion-ordered key/value associations, mirroring
Python dictionaries. -/
def PropMap := List (PropKey × PropValue)

instance : DecidableEq PropMap := inferInstanceAs (DecidableEq (List _))

instance : Repr PropMap := inferInstanceAs (Repr (List _))

/-- `Properties.EXPECTED`, the seen/expected verdict key of `property.py`
(modelled from the spec; the concrete name string is immaterial, the key is
not model-only). -/
def Properties.EXPECTED : PropKey := ⟨"check:expected", false⟩

/-- Extract the verdict of a property value, as `Properties.EXPECTED.get`
does for either representation (modelled from the spec: "Verdict-bearing
property set"). -/
def PropValue.verdictOf : PropValue → Option Verdict
  | .verdict v => some v
  | .verdictValue v => some v
  | .other _ => none

/-- `Entity.get_expected_verdict` (entity.py lines 49-51) with its default:
the verdict stored under `Properties.EXPECTED`, if any. -/
def expectedVerdict (m : PropMap) : Option Verdict :=
  (lookupA m Properties.EXPECTED).bind PropValue.verdictOf

/-- `Entity.set_seen_now` (entity.py lines 33-47) acting on the status and
property map of an entity: returns the new verdict exactly when the stored
value changed, together with the updated property map. -/
def set_seen_now (st : Status) (props : PropMap) : Option Verdict × PropMap :=
  let v := lookupA props Properties.EXPECTED
  if st = Status.EXPECTED then
    if v = some (PropValue.verdict Verdict.PASS) then (none, props)
    else (some Verdict.PASS, updateA props Properties.EXPECTED (PropValue.verdict Verdict.PASS))
  else if st = Status.UNEXPECTED then
    if v = some (PropValue.verdict Verdict.FAIL) then (none, props)
    else (some Verdict.FAIL, updateA props Properties.EXPECTED (PropValue.verdict Verdict.FAIL))
  else (none, props)

/-- Accumulator step of the folds in `Entity.get_verdict` (entity.py lines
57-66): the Python accumulator starts as `None`, and `Verdict.resolve`
treats a missing accumulator as `UNDEFINED` (modelled from the spec:
`Undefined` is the absorbing identity of resolution, §3). -/
def resolveOpt (a : Option Verdict) (b : Verdict) : Option Verdict :=
  some (Verdict.resolve (a.getD Verdict.UNDEFINED) b)

/-- An entity as seen by `Entity.get_verdict`: its property map and its child
entities (`get_children`). -/
inductive VEntity where
  | mk (props : PropMap) (children : List VEntity)

/-- `Entity.get_verdict` (entity.py lines 57-66): fold `Verdict.resolve`
over the children's aggregate verdicts and then over the Verdict-bearing
property values; a still-empty accumulator yields `UNDEFINED`.  The
memoization cache of the Python code is pure memoization and is omitted. -/
def VEntity.get_verdict : VEntity → Verdict
  | .mk props children =>
    let cv := children.attach.foldl
      (fun v c => resolveOpt v c.1.get_verdict) none
    let pv := props.foldl
      (fun v p => match p.2.verdictOf with
        | some w => resolveOpt v w
        | none => v) cv
    pv.getD Verdict.UNDEFINED
decreasing_by
  cases c with
  | mk c hc =>
    have h := List.sizeOf_lt_of_mem hc
    simp only [VEntity.mk.sizeOf_spec]
    omega

/-! ## Address model (modelled from the spec, `address.py` not among the
provided sources) -/

/-- Modelled from the spec: a host-level address — hardware, IP or DNS name,
plus the distinguished ANY wildcard and broadcast values (§3). -/
inductive HostAddr where
  | hw (s : String)
  | ipa (s : String)
  | dns (s : String)
  | any
  | broadcast
deriving DecidableEq, Repr

/-- Modelled from the spec: an address is a host address or an endpoint
(host address, protocol, port) (§3). -/
inductive Address where
  | host (h : HostAddr)
  | endpoint (h : HostAddr) (proto : Protocol) (port : Nat)
deriving DecidableEq, Repr

/-- Modelled from the spec: `is_wildcard` — an address whose host part is the
ANY wildcard (§3, §4.2 HostScan). -/
def Address.is_wildcard : Address → Bool
  | .host .any => true
  | .endpoint .any _ _ => true
  | _ => false

/-- Modelled from the spec: `change_host` — the same address with the host
part replaced, used for wildcard resolution against a scanned host. -/
def Address.change_host (a : Address) (h : HostAddr) : Address :=
  match a with
  | .host _ => .host h
  | .endpoint _ p n => .endpoint h p n

/-! ## Entity arena

The mutable shared graph of `model.py` (not among the provided sources) is
embedded as an arena of nodes (hosts and services) and connections keyed by
stable numeric identities; relationships are identity fields.  The fields are
the ones consulted by `inspector.py`, modelled from the spec §3. -/

/-- A network node: a host or a service under a host.  `parentHost` is the
node's own identity for a host (`get_parent_host`), `children` lists the
service children of a host, `addressPairs` are the learned HW-IP pairings,
`relevant` embeds `is_relevant()`. -/
structure NodeData where
  isService : Bool
  clientSide : Bool
  protocol : Protocol
  status : Status
  properties : PropMap
  parentHost : Nat
  children : List Nat
  isMulticast : Bool
  relevant : Bool
  externalActivity : ExternalActivity
  ignoreNameRequests : List String
  addresses : List Address
  addressPairs : List (HostAddr × HostAddr)
deriving DecidableEq, Repr

/-- A connection: an ordered pair of node identities with its own status and
properties (§3). -/
structure ConnData where
  source : Nat
  target : Nat
  status : Status
  properties : PropMap
deriving DecidableEq, Repr

/-- The entity graph: nodes and connections by identity. -/
structure SysState where
  nodes : List (Nat × NodeData)
  conns : List (Nat × ConnData)
deriving DecidableEq, Repr

/-- Status of a node, if present. -/
def nodeStatus (sys : SysState) (nid : Nat) : Option Status :=
  (lookupA sys.nodes nid).map (·.status)

/-- Property map of a node, if present. -/
def nodeProps (sys : SysState) (nid : Nat) : Option PropMap :=
  (lookupA sys.nodes nid).map (·.properties)

/-- Status of a connection, if present. -/
def connStatus (sys : SysState) (cid : Nat) : Option Status :=
  (lookupA sys.conns cid).map (·.status)

/-- Property map of a connection, if present. -/
def connProps (sys : SysState) (cid : Nat) : Option PropMap :=
  (lookupA sys.conns cid).map (·.properties)

/-- `get_parent_host()` of a node (a host is its own parent host). -/
def parentHostOf (sys : SysState) (nid : Nat) : Nat :=
  ((lookupA sys.nodes nid).map (·.parentHost)).getD nid

/-- Apply an in-place mutation to the node with identity `nid`, if present
(mirrors attribute mutation on a Python object held in the graph). -/
def updateNodeAt (sys : SysState) (nid : Nat) (f : NodeData → NodeData) : SysState :=
  match lookupA sys.nodes nid with
  | none => sys
  | some d => { sys with nodes := updateA sys.nodes nid (f d) }

/-- Apply an in-place mutation to the connection with identity `cid`. -/
def updateConnAt (sys : SysState) (cid : Nat) (f : ConnData → ConnData) : SysState :=
  match lookupA sys.conns cid with
  | none => sys
  | some c => { sys with conns := updateA sys.conns cid (f c) }

/-- Replace the property map of a node. -/
def setNodeProps (sys : SysState) (nid : Nat) (p : PropMap) : SysState :=
  updateNodeAt sys nid (fun d => { d with properties := p })

/-- Replace the property map of a connection. -/
def setConnProps (sys : SysState) (cid : Nat) (p : PropMap) : SysState :=
  updateConnAt sys cid (fun c => { c with properties := p })

/-- Lines 76-79 of inspector.py: an endpoint of a resolved connection that is
still a placeholder takes the connection's status. -/
def fixPlaceholder (sys : SysState) (nid : Nat) (cst : Status) : SysState :=
  updateNodeAt sys nid
    (fun d => if d.status = Status.PLACEHOLDER then { d with status := cst } else d)

/-- Modelled from the spec: `Addressable.set_seen_now(changed)` of
`model.py`: apply the §4.3 seen-now rule to the entity and to its parent
host, collecting `(identity, new verdict)` for each entity whose stored
verdict changed (observable in test_inspector.py: scanning a service also
marks its parent host seen). -/
def seenNowNode (sys : SysState) (nid : Nat) : SysState × List (Nat × Verdict) :=
  match lookupA sys.nodes nid with
  | none => (sys, [])
  | some d =>
    let rp := set_seen_now d.status d.properties
    let sys1 := setNodeProps sys nid rp.2
    let ch1 : List (Nat × Verdict) := match rp.1 with
      | some v => [(nid, v)]
      | none => []
    if d.parentHost = nid then (sys1, ch1)
    else match lookupA sys1.nodes d.parentHost with
      | none => (sys1, ch1)
      | some pd =>
        let rp2 := set_seen_now pd.status pd.properties
        let sys2 := setNodeProps sys1 d.parentHost rp2.2
        (sys2, ch1 ++ (match rp2.1 with
          | some v => [(d.parentHost, v)]
          | none => []))

/-- `Connection.set_seen_now()` on line 87 of inspector.py (modelled from the
spec §4.3 for the connection entity: the rule applied to the connection's own
status and properties; the return value is not used by the caller). -/
def seenNowConn (sys : SysState) (cid : Nat) : SysState :=
  match lookupA sys.conns cid with
  | none => sys
  | some cd => setConnProps sys cid (set_seen_now cd.status cd.properties).2

/-- Modelled from the spec: `Host.learn_address_pair` — opportunistically
record a HW-IP address pairing on a host, reporting whether the pair was
new (§4.2 Flow). -/
def learnPair (sys : SysState) (nid : Nat) (hw ip : HostAddr) : SysState × Bool :=
  match lookupA sys.nodes nid with
  | none => (sys, false)
  | some d =>
    if (hw, ip) ∈ d.addressPairs then (sys, false)
    else
      (updateNodeAt sys nid (fun d => { d with addressPairs := d.addressPairs ++ [(hw, ip)] }),
        true)

/-- Set membership insert, `set.add(x)`. -/
def addKnown (l : List Nat) (x : Nat) : List Nat :=
  if x ∈ l then l else l ++ [x]

/-- Merge of flow-carried properties into a property map (lines 121-125 of
inspector.py; `PropertyKey.update` of the missing property.py modelled from
the spec as dictionary assignment). -/
def mergeProps (p fp : PropMap) : PropMap :=
  fp.foldl (fun acc kv => updateA acc kv.1 kv.2) p

/-- Merge flow-carried properties into a connection's property map. -/
def mergeConnProps (sys : SysState) (cid : Nat) (fp : PropMap) : SysState :=
  match lookupA sys.conns cid with
  | none => sys
  | some cd => setConnProps sys cid (mergeProps cd.properties fp)

/-! ## Inspector (inspector.py) -/

/-- Modelled from the spec: a flow event — `(hw, ip, port)` tuples for source
and target plus a protocol and carried properties (traffic.py is not among
the provided sources; flows are value types usable as dictionary keys,
`Inspector.sessions`). `isIP` embeds `isinstance(flow, IPFlow)`. -/
structure Flow where
  isIP : Bool
  sourceHw : HostAddr
  sourceIp : HostAddr
  sourcePort : Nat
  targetHw : HostAddr
  targetIp : HostAddr
  targetPort : Nat
  protocol : Protocol
  properties : PropMap
deriving DecidableEq, Repr

/-- A model-change listener callback as recorded by the registered
listeners: `property_change`, `host_change` or `connection_change`. -/
inductive Notif where
  | propertyChange (nid : Nat) (v : Verdict)
  | hostChange (nid : Nat)
  | connectionChange (cid : Nat)
deriving DecidableEq, Repr

/-- The mutable state of an `Inspector`: the system graph plus the
per-connection flow counter, the session table and the known-host set
(inspector.py lines 19-26). -/
structure InspState where
  sys : SysState
  connectionCount : List (Nat × Nat)
  sessions : List (Flow × Bool)
  knownHosts : List Nat
deriving DecidableEq, Repr

/-- `update_seen_status` (inspector.py lines 64-71): mark an addressable
seen; report whether the entity entered the send set, and the emitted
property-change events. -/
def updateSeenStatus (sys : SysState) (nid : Nat) : SysState × Bool × List Notif :=
  let r := seenNowNode sys nid
  (r.1, !r.2.isEmpty, r.2.map (fun c => Notif.propertyChange nid c.2))

/-- Modelled from the spec: the collaborator interface the inspector drives —
`SystemMatcher.connection_w_ends` (§4.1), `IoTSystem.learn_named_address` and
`IoTSystem.get_endpoint` of model.py (neither module is among the provided
sources).  `M` is the matcher's private state. -/
structure Collab (M : Type) where
  matcher : M → SysState → Flow → M × SysState × Nat × Bool
  learnNamedAddress : SysState → String → Option HostAddr → SysState × Nat
  getEndpoint : SysState → Address → SysState × Nat

/-- Lines 85-97 of inspector.py: on the first observed flow of the
connection, mark it seen and, for IP flows, learn HW-IP address pairs on the
end hosts.  Returns the system plus the connection/source/target membership
of the `send` set contributed by this block. -/
def firstFlowStage (f : Flow) (reply : Bool) (conn : ConnData) (cid : Nat) (cCount : Nat)
    (sys2 : SysState) : SysState × Bool × Bool × Bool :=
  if cCount = 1 then
    let sysA := seenNowConn sys2 cid
    if f.isIP then
      let e0 := if reply then conn.target else conn.source
      let e1 := if reply then conn.source else conn.target
      let r0 := learnPair sysA (parentHostOf sysA e0) f.sourceHw f.sourceIp
      let r1 := learnPair r0.1 (parentHostOf r0.1 e1) f.targetHw f.targetIp
      (r1.1, true, (if reply then r1.2 else r0.2), (if reply then r0.2 else r1.2))
    else (sysA, true, false, false)
  else (sys2, false, false, false)

/-- Lines 99-119 of inspector.py: on a new session, update the seen status
of the sender, and of the target when it is unexpected, a relevant multicast
sink, or external with no recorded verdict (which gets Incon).  Returns the
system, the source/target send-set membership, and the emitted
property-change events. -/
def newSessionStage (f : Flow) (reply newSession : Bool) (conn : ConnData)
    (srcS0 tgtS0 : Bool) (sys3 : SysState) : SysState × Bool × Bool × List Notif :=
  if newSession then
    if !reply then
      let u := updateSeenStatus sys3 conn.source
      let srcS1 := srcS0 || u.2.1
      let tgtStat := nodeStatus u.1 conn.target
      if tgtStat = some Status.UNEXPECTED then
        let u2 := updateSeenStatus u.1 conn.target
        (u2.1, srcS1, tgtS0 || u2.2.1, u.2.2 ++ u2.2.2)
      else if ((lookupA u.1.nodes conn.target).map
          (fun d => d.relevant && d.isMulticast)).getD false then
        let u2 := updateSeenStatus u.1 conn.target
        (u2.1, srcS1, tgtS0 || u2.2.1, u.2.2 ++ u2.2.2)
      else if tgtStat = some Status.EXTERNAL then
        match lookupA u.1.nodes conn.target with
        | some d =>
          if expectedVerdict d.properties = none then
            let p' := updateA d.properties Properties.EXPECTED
              (PropValue.verdictValue Verdict.INCON)
            (setNodeProps u.1 conn.target p', srcS1, true, u.2.2)
          else (u.1, srcS1, tgtS0, u.2.2)
        | none => (u.1, srcS1, tgtS0, u.2.2)
      else (u.1, srcS1, tgtS0, u.2.2)
    else
      let u := updateSeenStatus sys3 conn.target
      (u.1, srcS0, tgtS0 || u.2.1, u.2.2)
  else (sys3, srcS0, tgtS0, [])

/-- The body of `Inspector.connection` (inspector.py lines 43-134) after the
matcher has resolved the flow to connection `cid` with direction `reply`,
yielding system state `sysm`.  Mirrors the source line by line: the
placeholder assertion, flow counting, session detection, placeholder
endpoint fixing, the first-flow stage, the new-session stage, flow-property
merging, and listener notification. -/
def connectionCore (st : InspState) (f : Flow) (sysm : SysState) (cid : Nat) (reply : Bool) :
    Except String (InspState × List Notif) :=
  match lookupA sysm.conns cid with
  | none => .error "unknown connection"
  | some conn =>
    if conn.status = Status.PLACEHOLDER then .error "placeholder connection"
    else
      let cCount := (lookupA st.connectionCount cid).getD 0 + 1
      let counts := updateA st.connectionCount cid cCount
      let newSession := (lookupA st.sessions f).isNone
      let sessions := if newSession then updateA st.sessions f reply else st.sessions
      let sys1 := fixPlaceholder sysm conn.source conn.status
      let sys2 := fixPlaceholder sys1 conn.target conn.status
      let kh := addKnown (addKnown st.knownHosts (parentHostOf sys2 conn.source))
        (parentHostOf sys2 conn.target)
      let fb := firstFlowStage f reply conn cid cCount sys2
      let ns := newSessionStage f reply newSession conn fb.2.2.1 fb.2.2.2 fb.1
      let sys5 := if conn.status = Status.EXPECTED then mergeConnProps ns.1 cid f.properties
        else ns.1
      let fin := ns.2.2.2
        ++ (if ns.2.1 then [Notif.hostChange (parentHostOf sys5 conn.source)] else [])
        ++ (if ns.2.2.1 then [Notif.hostChange (parentHostOf sys5 conn.target)] else [])
        ++ (if fb.2.1 then [Notif.connectionChange cid] else [])
      .ok (⟨sys5, counts, sessions, kh⟩, fin)

/-- `Inspector.connection`: resolve the flow through the matcher, then run
the inspection body; returns the new matcher state, inspector state, the
resolved connection and the emitted notifications. -/
def connectionStep {M : Type} (co : Collab M) (m : M) (st : InspState) (f : Flow) :
    Except String (M × InspState × Nat × List Notif) :=
  let r := co.matcher m st.sys f
  match connectionCore st f r.2.1 r.2.2.1 r.2.2.2 with
  | .error e => .error e
  | .ok (st', ns) => .ok (r.1, st', r.2.2.1, ns)

/-- Modelled from the spec: `is_tcp_service` of `model.py` (not among the
provided sources): whether the service's protocol tag runs on TCP; the
inspector's host-scan loop keeps only server TCP services (inspector.py
line 212-213). -/
def NodeData.is_tcp_service (d : NodeData) : Bool :=
  d.protocol = Protocol.tcp

/-- The requesting service of a name event, as consulted by the
captive-portal check of `Inspector.name` (services.py is not among the
provided sources; fields modelled from the spec §4.2 Name). -/
structure ServiceInfo where
  captivePortal : Bool
  parentAddresses : List HostAddr
deriving DecidableEq, Repr

/-- A DNS name event (`NameEvent` of services.py, modelled from the spec §4.2
Name): name, optionally the resolved address, the requesting service and the
peers of the observed resolution. -/
structure NameEvent where
  name : String
  address : Option HostAddr
  service : Option ServiceInfo
  peers : List Nat
deriving DecidableEq, Repr

/-- One iteration of the peer loop of `Inspector.name` (lines 146-153): a
peer objects to the name when the name is not in its parent host's
ignore-list and its external activity is below Open. -/
def peerViolates (sys : SysState) (n : String) (pid : Nat) : Bool :=
  match lookupA sys.nodes pid with
  | none => false
  | some pd =>
    let ign := ((lookupA sys.nodes pd.parentHost).map (·.ignoreNameRequests)).getD []
    if n ∈ ign then false
    else decide (pd.externalActivity.level < ExternalActivity.level ExternalActivity.OPEN)

/-- The captive-portal address suppression of `Inspector.name` (inspector.py
lines 137-139): a captive portal redirecting to its own parent's address is
not treated as an address. -/
def nameEventAddress (ev : NameEvent) : Option HostAddr :=
  match ev.service with
  | some sv =>
    if sv.captivePortal && (match ev.address with
      | some a => decide (a ∈ sv.parentAddresses)
      | none => false) then none
    else ev.address
  | none => ev.address

/-- `Inspector.name` (inspector.py lines 136-159): captive-portal address
suppression, name learning, external-activity evaluation of a newly seen
unexpected host, and the host-change notification. -/
def nameStep {M : Type} (co : Collab M) (st : InspState) (ev : NameEvent) :
    InspState × List Notif × Nat :=
  let address := nameEventAddress ev
  let r := co.learnNamedAddress st.sys ev.name address
  let sys1 := r.1
  let hid := r.2
  if hid ∈ st.knownHosts then ({ st with sys := sys1 }, [Notif.hostChange hid], hid)
  else
    let sys2 := match lookupA sys1.nodes hid with
      | some hd =>
        if hd.status = Status.UNEXPECTED then
          if ev.peers.any (peerViolates sys1 ev.name) then (seenNowNode sys1 hid).1
          else updateNodeAt sys1 hid (fun d => { d with status := Status.EXTERNAL })
        else sys1
      | none => sys1
    ({ st with sys := sys2, knownHosts := addKnown st.knownHosts hid },
      [Notif.hostChange hid], hid)

/-- Reference to the target entity of a property event (entity identity, as
in `PropertyEvent` of event_interface.py). -/
inductive EntityRef where
  | node (nid : Nat)
  | conn (cid : Nat)
deriving DecidableEq, Repr

/-- A `PropertyEvent`: target entity and key/value pair. -/
structure PropertyEvent where
  target : EntityRef
  key : PropKey
  value : PropValue
deriving DecidableEq, Repr

/-- `Inspector.property_update` (inspector.py lines 161-185): drop updates
for placeholder or unexpected targets, drop model-only keys not already
present, otherwise apply the update and notify. -/
def propertyUpdateStep (st : InspState) (ev : PropertyEvent) : InspState × List Notif :=
  match ev.target with
  | .node nid =>
    match lookupA st.sys.nodes nid with
    | none => (st, [])
    | some d =>
      if d.status = Status.PLACEHOLDER ∨ d.status = Status.UNEXPECTED then (st, [])
      else if ev.key.model ∧ lookupA d.properties ev.key = none then (st, [])
      else
        let sys' := setNodeProps st.sys nid (updateA d.properties ev.key ev.value)
        ({ st with sys := sys' }, [Notif.hostChange d.parentHost])
  | .conn cid =>
    match lookupA st.sys.conns cid with
    | none => (st, [])
    | some cd =>
      if cd.status = Status.PLACEHOLDER ∨ cd.status = Status.UNEXPECTED then (st, [])
      else if ev.key.model ∧ lookupA cd.properties ev.key = none then (st, [])
      else
        let sys' := setConnProps st.sys cid (updateA cd.properties ev.key ev.value)
        ({ st with sys := sys' }, [Notif.connectionChange cid])

/-- `Inspector.property_address_update` (inspector.py lines 187-198): resolve
the address, mark the entity seen (`_get_seen_entity`, lines 228-232), then
apply the key/value — with no status check — and notify. -/
def propertyAddressUpdateStep {M : Type} (co : Collab M) (st : InspState) (addr : Address)
    (key : PropKey) (val : PropValue) : Except String (InspState × List Notif) :=
  let r := co.getEndpoint st.sys addr
  match lookupA r.1.nodes r.2 with
  | none => .error "not implemented"
  | some _ =>
    let sys2 := (seenNowNode r.1 r.2).1
    match lookupA sys2.nodes r.2 with
    | none => .error "not implemented"
    | some d =>
      if key.model ∧ lookupA d.properties key = none then
        .ok ({ st with sys := sys2 }, [])
      else
        .ok ({ st with sys := setNodeProps sys2 r.2 (updateA d.properties key val) },
          [Notif.hostChange d.parentHost])

/-- `Inspector.service_scan` (inspector.py lines 200-205): mark the matched
service seen and notify its parent host. -/
def serviceScanStep {M : Type} (co : Collab M) (st : InspState) (endpoint : Address) :
    Except String (InspState × List Notif × Nat) :=
  let r := co.getEndpoint st.sys endpoint
  match lookupA r.1.nodes r.2 with
  | none => .error "not implemented"
  | some d0 =>
    if !d0.isService then .error "not a service"
    else
      let sys2 := (seenNowNode r.1 r.2).1
      .ok ({ st with sys := sys2 }, [Notif.hostChange d0.parentHost], r.2)

/-- A `HostScan` event: scanned host address and the observed endpoint set
(traffic.py, modelled from the spec §4.2 HostScan). -/
structure HostScan where
  host : HostAddr
  endpoints : List Address
deriving DecidableEq, Repr

/-- One iteration of the child loop of `Inspector.host_scan` (lines
210-223): services that are client-side or not TCP are skipped, irrelevant
children are skipped, a child with an observed address (directly or after
wildcard resolution) is left alone, and any other child gets the EXPECTED
property verdict Fail. -/
def hostScanChild (scanHost : HostAddr) (eps : List Address) (sys : SysState) (cn : Nat) :
    SysState :=
  match lookupA sys.nodes cn with
  | none => sys
  | some cd =>
    if cd.isService && (cd.clientSide || !cd.is_tcp_service) then sys
    else if !cd.relevant then sys
    else if cd.addresses.any (fun a =>
        decide (a ∈ eps) || (a.is_wildcard && decide (a.change_host scanHost ∈ eps))) then sys
    else setNodeProps sys cn
      (updateA cd.properties Properties.EXPECTED (PropValue.verdictValue Verdict.FAIL))

/-- `Inspector.host_scan` (inspector.py lines 207-226): resolve the host,
check each child against the observed endpoint set, record the host as
known and notify. -/
def hostScanStep {M : Type} (co : Collab M) (st : InspState) (scan : HostScan) :
    Except String (InspState × List Notif × Nat) :=
  let r := co.getEndpoint st.sys (Address.host scan.host)
  match lookupA r.1.nodes r.2 with
  | none => .error "not a host"
  | some hd =>
    if hd.isService then .error "not a host"
    else
      let sys2 := hd.children.foldl (hostScanChild scan.host scan.endpoints) r.1
      .ok ({ st with sys := sys2, knownHosts := addKnown st.knownHosts r.2 },
        [Notif.hostChange r.2], r.2)

/-- The event interface of the inspector: one constructor per evidence event
kind (event_interface.py / traffic.py, modelled from the spec §6). -/
inductive InspEvent where
  | flow (f : Flow)
  | nameEv (ev : NameEvent)
  | propUpd (ev : PropertyEvent)
  | propAddrUpd (addr : Address) (key : PropKey) (val : PropValue)
  | svcScan (endpoint : Address)
  | hostScanEv (scan : HostScan)
deriving DecidableEq, Repr

/-- Dispatch one evidence event to the matching inspector handler. -/
def inspStep {M : Type} (co : Collab M) (m : M) (st : InspState) (e : InspEvent) :
    Except String (M × InspState) :=
  match e with
  | .flow f => (connectionStep co m st f).map (fun r => (r.1, r.2.1))
  | .nameEv ev => .ok (m, (nameStep co st ev).1)
  | .propUpd ev => .ok (m, (propertyUpdateStep st ev).1)
  | .propAddrUpd a k v => (propertyAddressUpdateStep co st a k v).map (fun r => (m, r.1))
  | .svcScan ep => (serviceScanStep co st ep).map (fun r => (m, r.1))
  | .hostScanEv sc => (hostScanStep co st sc).map (fun r => (m, r.1))

/-- Process a sequence of evidence events, stopping at the first error. -/
def runEvents {M : Type} (co : Collab M) : M → InspState → List InspEvent →
    Except String (M × InspState)
  | m, st, [] => .ok (m, st)
  | m, st, e :: t =>
    match inspStep co m st e with
    | .error s => .error s
    | .ok r => runEvents co r.1 r.2 t

/-! ## InMemoryDatabase (entity_database.py lines 42-79)

Entities are represented by their Python object identity, a number. -/

/-- The identity maps of `InMemoryDatabase`: `ids` (entity to ID) and
`reverse_id` (IDs in assignment order). -/
structure InMemoryDB where
  ids : List (Nat × Nat)
  reverse_id : List Nat
deriving DecidableEq, Repr

/-- `InMemoryDatabase.get_id` (entity_database.py lines 66-71): return the
stored ID or assign the next one (the current size of `ids`) and append the
entity to `reverse_id`. -/
def imdbGetId (db : InMemoryDB) (e : Nat) : InMemoryDB × Nat :=
  match lookupA db.ids e with
  | some i => (db, i)
  | none =>
    let i := db.ids.length
    ({ ids := db.ids ++ [(e, i)], reverse_id := db.reverse_id ++ [e] }, i)

/-- `InMemoryDatabase.get_entity` (entity_database.py lines 73-74):
`reverse_id[id_value] if id_value < len(reverse_id) else None`, with Python
list indexing semantics — a negative index counts from the end and raises
IndexError when out of range. -/
def imdbGetEntity (db : InMemoryDB) (i : Int) : Except String (Option Nat) :=
  if i < (db.reverse_id.length : Int) then
    if 0 ≤ i then .ok (db.reverse_id.get? i.toNat)
    else if 0 ≤ i + db.reverse_id.length then
      .ok (db.reverse_id.get? (i + db.reverse_id.length).toNat)
    else .error "IndexError"
  else .ok none

/-! ## SQLDatabase (sql_database.py) -/

/-- An entity as keyed by `SQLDatabase.get_id` (sql_database.py lines
159-207): the `oid` is the Python object identity used by the `id_cache`
dictionary, the remaining fields are the structural data the key is derived
from.  The `isinstance` dispatch order of the source (Service before
Addressable before NodeComponent before Connection) maps onto the
constructors; `otherE` is an object of no table-stored category. -/
inductive DBEntity where
  | host (oid : Nat) (longName : String)
  | service (oid : Nat) (sname : String) (longName : String) (parent : DBEntity)
  | component (oid : Nat) (cname : String) (owner : DBEntity)
  | connection (oid : Nat) (longName : String) (src : DBEntity) (tgt : DBEntity)
  | otherE (oid : Nat)
deriving DecidableEq, Repr

/-- Python object identity of an entity. -/
def DBEntity.oid : DBEntity → Nat
  | .host o _ => o
  | .service o _ _ _ => o
  | .component o _ _ => o
  | .connection o _ _ _ => o
  | .otherE o => o

/-- `concept_name` of an entity, stored in the `type` column. -/
def DBEntity.typeName : DBEntity → String
  | .host _ _ => "node"
  | .service _ _ _ _ => "service"
  | .component _ _ _ => "component"
  | .connection _ _ _ _ => "connection"
  | .otherE _ => "other"

/-- A structural cache key of `SQLDatabase` (`id_by_key`): a bare name
(hosts), a name with an owner ID (services and components), or an ID pair
(connections). -/
inductive DBKey where
  | nameK (s : String)
  | nameOwner (s : String) (i : Nat)
  | pairK (i j : Nat)
deriving DecidableEq, Repr

/-- A row of the `entity_ids` table (`TableEntityID`). -/
structure EntityRow where
  rid : Nat
  name : String
  src : Option Nat
  tgt : Option Nat
  longName : Option String
  typ : String
deriving DecidableEq, Repr

/-- The identity-related state of a `SQLDatabase`: the key cache, the
per-object ID cache, the entity cache (with `none` marking IDs reserved
from a previous run), the free-ID counter and the persisted table rows. -/
structure SQLState where
  id_by_key : List (DBKey × Nat)
  id_cache : List (Nat × Nat)
  entity_cache : List (Nat × Option DBEntity)
  free_cache_id : Nat
  rows : List EntityRow
deriving DecidableEq, Repr

/-- The scan of `_cache_entity` for the first identity not yet in the entity
cache, starting at `start`; the fuel is one more than the number of used
identities, which always suffices. -/
def firstFreeAux (used : List Nat) : Nat → Nat → Nat
  | start, 0 => start
  | start, fuel + 1 => if start ∈ used then firstFreeAux used (start + 1) fuel else start

/-- First identity at or after `start` that is not in `used`. -/
def firstFree (used : List Nat) (start : Nat) : Nat :=
  firstFreeAux used start (used.length + 1)

/-- `SQLDatabase._cache_entity` (lines 209-216): pick the first free ID,
record it in the object and entity caches, and advance the counter. -/
def cacheEntity (st : SQLState) (e : DBEntity) : SQLState × Nat :=
  let i := firstFree (st.entity_cache.map (·.1)) st.free_cache_id
  ({ st with
      id_cache := updateA st.id_cache e.oid i,
      entity_cache := updateA st.entity_cache i (some e),
      free_cache_id := i + 1 }, i)

/-- Lines 189-207 of `get_id` for a keyed entity: reuse the ID stored for
the structural key if present, else allocate one and persist a new row. -/
def finishKeyed (st : SQLState) (e : DBEntity) (key : DBKey) (shortName : String)
    (longName : Option String) (src tgt : Option Nat) : SQLState × Nat :=
  match lookupA st.id_by_key key with
  | some i =>
    ({ st with
        id_cache := updateA st.id_cache e.oid i,
        entity_cache := updateA st.entity_cache i (some e) }, i)
  | none =>
    let r := cacheEntity st e
    let row : EntityRow := ⟨r.2, shortName, src, tgt, longName, e.typeName⟩
    ({ r.1 with rows := r.1.rows ++ [row], id_by_key := updateA r.1.id_by_key key r.2 }, r.2)

/-- `SQLDatabase.get_id` (sql_database.py lines 159-207): object-identity
cache first, then the structural key — Service `(name, parent ID)`, Host
(Addressable) long name, NodeComponent `(name, owner ID)`, Connection
`(source ID, target ID)` — with recursive registration of the related
entities; an entity of no category is cached but not stored. -/
def sqlGetId : SQLState → DBEntity → SQLState × Nat
  | st, e =>
    match lookupA st.id_cache e.oid, e with
    | some i, _ => (st, i)
    | none, .host o ln => finishKeyed st (.host o ln) (.nameK ln) ln none none none
    | none, .service o sn ln parent =>
      let rp := sqlGetId st parent
      finishKeyed rp.1 (.service o sn ln parent) (.nameOwner sn rp.2) sn (some ln) (some rp.2) none
    | none, .component o cn owner =>
      let rp := sqlGetId st owner
      finishKeyed rp.1 (.component o cn owner) (.nameOwner cn rp.2) cn none (some rp.2) none
    | none, .connection o ln s t =>
      let rs := sqlGetId st s
      let rt := sqlGetId rs.1 t
      finishKeyed rt.1 (.connection o ln s t) (.pairK rs.2 rt.2) ln none (some rs.2) (some rt.2)
    | none, .otherE o => cacheEntity st (.otherE o)

/-- `SQLDatabase.get_entity` (lines 218-219): the cached entity, `none` for
unknown or merely reserved IDs. -/
def sqlGetEntity (st : SQLState) (i : Nat) : Option DBEntity :=
  (lookupA st.entity_cache i).bind id

/-- `_fill_cache` key reconstruction (lines 80-87): a row with neither
source nor target is a host key, both set is a connection (or component)
pair key, only source set is a service-shaped `(name, source)` key, and
only target set raises. -/
def reconstructKey (r : EntityRow) : Option DBKey :=
  match r.src, r.tgt with
  | none, none => some (.nameK r.name)
  | some s, some t => some (.pairK s t)
  | some s, none => some (.nameOwner r.name s)
  | none, some _ => none

/-- The row-processing loop of `_fill_cache` (lines 76-89): each row's key
is rebuilt and recorded, and its ID is reserved in the entity cache; a
malformed row raises. -/
def reloadAcc : SQLState → List EntityRow → Option SQLState
  | st, [] => some st
  | st, r :: t =>
    match reconstructKey r with
    | none => none
    | some k =>
      reloadAcc { st with
        id_by_key := updateA st.id_by_key k r.rid,
        entity_cache := updateA st.entity_cache r.rid none } t

/-- A fresh `SQLDatabase` opened on the same persisted rows (`__init__` plus
`_fill_cache`, lines 47-94): the key cache is rebuilt from the rows, every
row's ID is reserved in the entity cache, the object cache is empty and the
free counter restarts at 1. -/
def reloadDB (rows : List EntityRow) : Option SQLState :=
  reloadAcc ⟨[], [], [], 1, rows⟩ rows

/-- The ID of the last row whose reconstructed key is `k` (dictionary
assignment in row order makes the last row win). -/
def lastRowId : List EntityRow → DBKey → Option Nat
  | [], _ => none
  | r :: t, k =>
    match lastRowId t k with
    | some j => some j
    | none => if reconstructKey r = some k then some r.rid else none

/-- The identity `_cache_entity` allocates in state `st`: the first ID at or
after the free counter not yet present in the entity cache. -/
def allocId (st : SQLState) : Nat :=
  firstFree (st.entity_cache.map (·.1)) st.free_cache_id

/-- The state `get_id` leaves after registering keyed entity `e` afresh
(cache miss and key miss): caches filled, counter advanced and one new row
appended. -/
def registerFresh (st : SQLState) (e : DBEntity) (key : DBKey) (shortName : String)
    (longName : Option String) (src tgt : Option Nat) : SQLState :=
  ⟨updateA st.id_by_key key (allocId st),
   updateA st.id_cache e.oid (allocId st),
   updateA st.entity_cache (allocId st) (some e),
   allocId st + 1,
   st.rows ++ [⟨allocId st, shortName, src, tgt, longName, e.typeName⟩]⟩

/-- The state after a fresh host registration. -/
def freshHost (st : SQLState) (o : Nat) (ln : String) : SQLState :=
  registerFresh st (.host o ln) (.nameK ln) ln none none none

/-! ## Event storage (sql_database.py lines 60-69, 120-151, 221-243) -/

/-- The kind of a stored event; `unknownKind` stands for an `Event` subclass
absent from the `event_types` registry of sql_database.py lines 60-69. -/
inductive EventKind where
  | flowEth
  | flowIp
  | flowBle
  | propEnt
  | propAdd
  | nameE
  | scanService
  | scanHost
  | unknownKind (tag : String)
deriving DecidableEq, Repr

/-- The `event_names` registry (class-to-name direction, line 70): `none`
for an event class the database does not understand. -/
def eventTypeName : EventKind → Option String
  | .flowEth => some "flow-eth"
  | .flowIp => some "flow-ip"
  | .flowBle => some "flow-ble"
  | .propEnt => some "prop-ent"
  | .propAdd => some "prop-add"
  | .nameE => some "name"
  | .scanService => some "scan-service"
  | .scanHost => some "scan-host"
  | .unknownKind _ => none

/-- The `event_types` registry (name-to-class direction, lines 60-69). -/
def kindOfTypeName (s : String) : Option EventKind :=
  if s = "flow-eth" then some .flowEth
  else if s = "flow-ip" then some .flowIp
  else if s = "flow-ble" then some .flowBle
  else if s = "prop-ent" then some .propEnt
  else if s = "prop-add" then some .propAdd
  else if s = "name" then some .nameE
  else if s = "scan-service" then some .scanService
  else if s = "scan-host" then some .scanHost
  else none

/-- An event offered to `put_event`: its kind and its serialized payload
(opaque here). -/
structure DBEvent where
  kind : EventKind
  payload : Nat
deriving DecidableEq, Repr

/-- A row of the `events` table. -/
structure EventRow where
  typ : String
  payload : Nat
deriving DecidableEq, Repr

/-- `SQLDatabase.put_event` (lines 221-243) restricted to the event table:
an event whose class is not in `event_names` is returned over without
storing anything and without error; a known event is appended.  (The
evidence-source bookkeeping happens after the early return and does not
affect the drop.) -/
def putEvent (rows : List EventRow) (e : DBEvent) : List EventRow :=
  match eventTypeName e.kind with
  | none => rows
  | some t => rows ++ [⟨t, e.payload⟩]

/-- `SQLDatabase.read_events` (lines 120-151) restricted to event decoding:
rows whose type string is not in `event_types` are skipped with `continue`,
the rest are yielded in order. -/
def readEvents (rows : List EventRow) : List DBEvent :=
  rows.filterMap (fun r => (kindOfTypeName r.typ).map (fun k => ⟨k, r.payload⟩))

/-! ## General lemmas -/

theorem lookupA_append {κ ν : Type} [DecidableEq κ] (l1 l2 : List (κ × ν)) (k : κ) :
    lookupA (l1 ++ l2) k =
      match lookupA l1 k with
      | some v => some v
      | none => lookupA l2 k := by
  induction l1 with
  | nil => simp
  | cons h t ih =>
    obtain ⟨k', v'⟩ := h
    by_cases hk : k' = k <;> simp [hk, ih]

theorem updateNodeAt_conns (sys : SysState) (nid : Nat) (f : NodeData → NodeData) :
    (updateNodeAt sys nid f).conns = sys.conns := by
  unfold updateNodeAt
  cases lookupA sys.nodes nid <;> rfl

theorem updateNodeAt_of_none (sys : SysState) (nid : Nat) (f : NodeData → NodeData)
    (h : lookupA sys.nodes nid = none) : updateNodeAt sys nid f = sys := by
  unfold updateNodeAt
  rw [h]

theorem lookupA_updateNodeAt_self (sys : SysState) (nid : Nat) (f : NodeData → NodeData)
    (d : NodeData) (h : lookupA sys.nodes nid = some d) :
    lookupA (updateNodeAt sys nid f).nodes nid = some (f d) := by
  unfold updateNodeAt
  rw [h]
  exact lookupA_updateA _ _ _

theorem lookupA_updateNodeAt_other (sys : SysState) (nid : Nat) (f : NodeData → NodeData)
    (n : Nat) (h : n ≠ nid) :
    lookupA (updateNodeAt sys nid f).nodes n = lookupA sys.nodes n := by
  unfold updateNodeAt
  cases hc : lookupA sys.nodes nid with
  | none => rfl
  | some d => exact lookupA_updateA_ne _ _ _ _ (fun he => h he.symm)

theorem nodeStatus_updateNodeAt (sys : SysState) (nid : Nat) (f : NodeData → NodeData)
    (hf : ∀ d, (f d).status = d.status) (n : Nat) :
    nodeStatus (updateNodeAt sys nid f) n = nodeStatus sys n := by
  by_cases hn : n = nid
  · subst hn
    cases hc : lookupA sys.nodes n with
    | none => simp [nodeStatus, updateNodeAt_of_none sys n f hc, hc]
    | some d =>
      rw [nodeStatus, lookupA_updateNodeAt_self sys n f d hc, nodeStatus, hc]
      simp [hf]
  · rw [nodeStatus, lookupA_updateNodeAt_other sys nid f n hn, nodeStatus]

theorem parentHostOf_updateNodeAt (sys : SysState) (nid : Nat) (f : NodeData → NodeData)
    (hf : ∀ d, (f d).parentHost = d.parentHost) (n : Nat) :
    parentHostOf (updateNodeAt sys nid f) n = parentHostOf sys n := by
  by_cases hn : n = nid
  · subst hn
    cases hc : lookupA sys.nodes n with
    | none => simp [parentHostOf, updateNodeAt_of_none sys n f hc, hc]
    | some d =>
      rw [parentHostOf, lookupA_updateNodeAt_self sys n f d hc, parentHostOf, hc]
      simp [hf]
  · rw [parentHostOf, lookupA_updateNodeAt_other sys nid f n hn, parentHostOf]

theorem updateConnAt_nodes (sys : SysState) (cid : Nat) (f : ConnData → ConnData) :
    (updateConnAt sys cid f).nodes = sys.nodes := by
  unfold updateConnAt
  cases lookupA sys.conns cid <;> rfl

theorem updateConnAt_of_none (sys : SysState) (cid : Nat) (f : ConnData → ConnData)
    (h : lookupA sys.conns cid = none) : updateConnAt sys cid f = sys := by
  unfold updateConnAt
  rw [h]

theorem lookupA_updateConnAt_self (sys : SysState) (cid : Nat) (f : ConnData → ConnData)
    (c : ConnData) (h : lookupA sys.conns cid = some c) :
    lookupA (updateConnAt sys cid f).conns cid = some (f c) := by
  unfold updateConnAt
  rw [h]
  exact lookupA_updateA _ _ _

theorem lookupA_updateConnAt_other (sys : SysState) (cid : Nat) (f : ConnData → ConnData)
    (n : Nat) (h : n ≠ cid) :
    lookupA (updateConnAt sys cid f).conns n = lookupA sys.conns n := by
  unfold updateConnAt
  cases hc : lookupA sys.conns cid with
  | none => rfl
  | some c => exact lookupA_updateA_ne _ _ _ _ (fun he => h he.symm)

/-- Statuses and endpoints of a connection, for frame reasoning. -/
def connShape (sys : SysState) (cid : Nat) : Option (Status × Nat × Nat) :=
  (lookupA sys.conns cid).map (fun c => (c.status, c.source, c.target))

theorem connShape_updateConnAt (sys : SysState) (cid : Nat) (f : ConnData → ConnData)
    (hf : ∀ c, (f c).status = c.status ∧ (f c).source = c.source ∧ (f c).target = c.target)
    (n : Nat) : connShape (updateConnAt sys cid f) n = connShape sys n := by
  by_cases hn : n = cid
  · subst hn
    cases hc : lookupA sys.conns n with
    | none => simp [connShape, updateConnAt_of_none sys n f hc, hc]
    | some c =>
      rw [connShape, lookupA_updateConnAt_self sys n f c hc, connShape, hc]
      simp [(hf c).1, (hf c).2.1, (hf c).2.2]
  · rw [connShape, lookupA_updateConnAt_other sys cid f n hn, connShape]

/-! Frame lemmas for the compound operations. -/

theorem setNodeProps_conns (sys : SysState) (nid : Nat) (p : PropMap) :
    (setNodeProps sys nid p).conns = sys.conns := updateNodeAt_conns _ _ _

theorem nodeStatus_setNodeProps (sys : SysState) (nid : Nat) (p : PropMap) (n : Nat) :
    nodeStatus (setNodeProps sys nid p) n = nodeStatus sys n :=
  nodeStatus_updateNodeAt sys nid (fun d => { d with properties := p }) (fun _ => rfl) n

theorem parentHostOf_setNodeProps (sys : SysState) (nid : Nat) (p : PropMap) (n : Nat) :
    parentHostOf (setNodeProps sys nid p) n = parentHostOf sys n :=
  parentHostOf_updateNodeAt sys nid (fun d => { d with properties := p }) (fun _ => rfl) n

theorem seenNowNode_conns (sys : SysState) (nid : Nat) :
    ((seenNowNode sys nid).1).conns = sys.conns := by
  unfold seenNowNode
  cases hc : lookupA sys.nodes nid with
  | none => rfl
  | some d =>
    simp only
    split
    · exact setNodeProps_conns _ _ _
    · split
      · exact setNodeProps_conns _ _ _
      · rw [setNodeProps_conns, setNodeProps_conns]

theorem nodeStatus_seenNowNode (sys : SysState) (nid : Nat) (n : Nat) :
    nodeStatus ((seenNowNode sys nid).1) n = nodeStatus sys n := by
  unfold seenNowNode
  cases hc : lookupA sys.nodes nid with
  | none => rfl
  | some d =>
    simp only
    split
    · exact nodeStatus_setNodeProps _ _ _ _
    · split
      · exact nodeStatus_setNodeProps _ _ _ _
      · rw [nodeStatus_setNodeProps, nodeStatus_setNodeProps]

theorem parentHostOf_seenNowNode (sys : SysState) (nid : Nat) (n : Nat) :
    parentHostOf ((seenNowNode sys nid).1) n = parentHostOf sys n := by
  unfold seenNowNode
  cases hc : lookupA sys.nodes nid with
  | none => rfl
  | some d =>
    simp only
    split
    · exact parentHostOf_setNodeProps _ _ _ _
    · split
      · exact parentHostOf_setNodeProps _ _ _ _
      · rw [parentHostOf_setNodeProps, parentHostOf_setNodeProps]

theorem seenNowNode_of_none (sys : SysState) (nid : Nat)
    (h : lookupA sys.nodes nid = none) : seenNowNode sys nid = (sys, []) := by
  unfold seenNowNode
  rw [h]

theorem learnPair_conns (sys : SysState) (nid : Nat) (hw ip : HostAddr) :
    ((learnPair sys nid hw ip).1).conns = sys.conns := by
  unfold learnPair
  cases hc : lookupA sys.nodes nid with
  | none => rfl
  | some d =>
    simp only
    split
    · rfl
    · exact updateNodeAt_conns _ _ _

theorem nodeStatus_learnPair (sys : SysState) (nid : Nat) (hw ip : HostAddr) (n : Nat) :
    nodeStatus ((learnPair sys nid hw ip).1) n = nodeStatus sys n := by
  unfold learnPair
  cases hc : lookupA sys.nodes nid with
  | none => rfl
  | some d =>
    simp only
    split
    · rfl
    · exact nodeStatus_updateNodeAt sys nid
        (fun d => { d with addressPairs := d.addressPairs ++ [(hw, ip)] }) (fun _ => rfl) n

theorem parentHostOf_learnPair (sys : SysState) (nid : Nat) (hw ip : HostAddr) (n : Nat) :
    parentHostOf ((learnPair sys nid hw ip).1) n = parentHostOf sys n := by
  unfold learnPair
  cases hc : lookupA sys.nodes nid with
  | none => rfl
  | some d =>
    simp only
    split
    · rfl
    · exact parentHostOf_updateNodeAt sys nid
        (fun d => { d with addressPairs := d.addressPairs ++ [(hw, ip)] }) (fun _ => rfl) n

theorem seenNowConn_nodes (sys : SysState) (cid : Nat) :
    (seenNowConn sys cid).nodes = sys.nodes := by
  unfold seenNowConn
  cases hc : lookupA sys.conns cid with
  | none => rfl
  | some c => exact updateConnAt_nodes _ _ _

theorem connShape_seenNowConn (sys : SysState) (cid : Nat) (n : Nat) :
    connShape (seenNowConn sys cid) n = connShape sys n := by
  unfold seenNowConn
  cases hc : lookupA sys.conns cid with
  | none => rfl
  | some c =>
    simp only
    exact connShape_updateConnAt sys cid
      (fun x => { x with properties := (set_seen_now c.status c.properties).2 })
      (fun _ => ⟨rfl, rfl, rfl⟩) n

theorem mergeConnProps_nodes (sys : SysState) (cid : Nat) (fp : PropMap) :
    (mergeConnProps sys cid fp).nodes = sys.nodes := by
  unfold mergeConnProps
  cases hc : lookupA sys.conns cid with
  | none => rfl
  | some c => exact updateConnAt_nodes _ _ _

theorem connShape_mergeConnProps (sys : SysState) (cid : Nat) (fp : PropMap) (n : Nat) :
    connShape (mergeConnProps sys cid fp) n = connShape sys n := by
  unfold mergeConnProps
  cases hc : lookupA sys.conns cid with
  | none => rfl
  | some c =>
    simp only
    exact connShape_updateConnAt sys cid
      (fun x => { x with properties := mergeProps c.properties fp })
      (fun _ => ⟨rfl, rfl, rfl⟩) n

theorem fixPlaceholder_conns (sys : SysState) (nid : Nat) (cst : Status) :
    (fixPlaceholder sys nid cst).conns = sys.conns := updateNodeAt_conns _ _ _

theorem parentHostOf_fixPlaceholder (sys : SysState) (nid : Nat) (cst : Status) (n : Nat) :
    parentHostOf (fixPlaceholder sys nid cst) n = parentHostOf sys n := by
  refine parentHostOf_updateNodeAt _ _ _ (fun d => ?_) n
  by_cases h : d.status = Status.PLACEHOLDER <;> simp [h]

theorem fixPlaceholder_of_not_ph (sys : SysState) (nid : Nat) (cst : Status)
    (h : nodeStatus sys nid ≠ some Status.PLACEHOLDER) :
    fixPlaceholder sys nid cst = sys := by
  unfold fixPlaceholder updateNodeAt
  cases hc : lookupA sys.nodes nid with
  | none => rfl
  | some d =>
    have hd : d.status ≠ Status.PLACEHOLDER := by
      rw [nodeStatus, hc] at h
      simpa using h
    simp only [hd, if_false]
    rw [updateA_self sys.nodes nid d hc]

theorem nodeStatus_fixPlaceholder_target (sys : SysState) (nid : Nat) (cst : Status)
    (hcst : cst ≠ Status.PLACEHOLDER) :
    nodeStatus (fixPlaceholder sys nid cst) nid ≠ some Status.PLACEHOLDER := by
  unfold fixPlaceholder
  cases hc : lookupA sys.nodes nid with
  | none =>
    rw [nodeStatus, updateNodeAt_of_none sys nid _ hc, hc]
    simp
  | some d =>
    rw [nodeStatus, lookupA_updateNodeAt_self sys nid _ d hc]
    by_cases hd : d.status = Status.PLACEHOLDER <;> simp [hd, hcst]

theorem nodeStatus_fixPlaceholder_not_ph (sys : SysState) (nid : Nat) (cst : Status)
    (hcst : cst ≠ Status.PLACEHOLDER) (n : Nat)
    (h : nodeStatus sys n ≠ some Status.PLACEHOLDER) :
    nodeStatus (fixPlaceholder sys nid cst) n ≠ some Status.PLACEHOLDER := by
  by_cases hn : n = nid
  · subst hn
    exact nodeStatus_fixPlaceholder_target sys n cst hcst
  · unfold fixPlaceholder
    rw [nodeStatus, lookupA_updateNodeAt_other sys nid _ n hn, ← nodeStatus]
    exact h

/-- The result system of `updateSeenStatus` is that of `seenNowNode`. -/
theorem updateSeenStatus_fst (sys : SysState) (nid : Nat) :
    (updateSeenStatus sys nid).1 = (seenNowNode sys nid).1 := rfl

theorem addKnown_of_mem (l : List Nat) (x : Nat) (h : x ∈ l) : addKnown l x = l := by
  simp [addKnown, h]

theorem mem_addKnown_self (l : List Nat) (x : Nat) : x ∈ addKnown l x := by
  by_cases h : x ∈ l <;> simp [addKnown, h]

theorem mem_addKnown_of_mem (l : List Nat) (x y : Nat) (h : y ∈ l) : y ∈ addKnown l x := by
  by_cases hx : x ∈ l <;> simp [addKnown, hx, h]

theorem nodeStatus_of_nodes_eq (a b : SysState) (h : a.nodes = b.nodes) (n : Nat) :
    nodeStatus a n = nodeStatus b n := by
  rw [nodeStatus, nodeStatus, h]

theorem parentHostOf_of_nodes_eq (a b : SysState) (h : a.nodes = b.nodes) (n : Nat) :
    parentHostOf a n = parentHostOf b n := by
  rw [parentHostOf, parentHostOf, h]

theorem connShape_of_conns_eq (a b : SysState) (h : a.conns = b.conns) (n : Nat) :
    connShape a n = connShape b n := by
  rw [connShape, connShape, h]

theorem nodeStatus_seenNowConn (sys : SysState) (cid : Nat) (n : Nat) :
    nodeStatus (seenNowConn sys cid) n = nodeStatus sys n :=
  nodeStatus_of_nodes_eq _ _ (seenNowConn_nodes sys cid) n

theorem parentHostOf_seenNowConn (sys : SysState) (cid : Nat) (n : Nat) :
    parentHostOf (seenNowConn sys cid) n = parentHostOf sys n :=
  parentHostOf_of_nodes_eq _ _ (seenNowConn_nodes sys cid) n

theorem connShape_seenNowNode (sys : SysState) (nid : Nat) (n : Nat) :
    connShape ((seenNowNode sys nid).1) n = connShape sys n :=
  connShape_of_conns_eq _ _ (seenNowNode_conns sys nid) n

theorem connShape_learnPair (sys : SysState) (nid : Nat) (hw ip : HostAddr) (n : Nat) :
    connShape ((learnPair sys nid hw ip).1) n = connShape sys n :=
  connShape_of_conns_eq _ _ (learnPair_conns sys nid hw ip) n

theorem connShape_setNodeProps (sys : SysState) (nid : Nat) (p : PropMap) (n : Nat) :
    connShape (setNodeProps sys nid p) n = connShape sys n :=
  connShape_of_conns_eq _ _ (setNodeProps_conns sys nid p) n

theorem connShape_fixPlaceholder (sys : SysState) (nid : Nat) (cst : Status) (n : Nat) :
    connShape (fixPlaceholder sys nid cst) n = connShape sys n :=
  connShape_of_conns_eq _ _ (fixPlaceholder_conns sys nid cst) n

theorem connStatus_of_connShape (sys sys' : SysState) (cid : Nat)
    (h : connShape sys cid = connShape sys' cid) :
    connStatus sys cid = connStatus sys' cid := by
  rw [connStatus, connStatus]
  rw [connShape, connShape] at h
  cases h1 : lookupA sys.conns cid with
  | none =>
    rw [h1] at h
    cases h2 : lookupA sys'.conns cid with
    | none => rfl
    | some c =>
      rw [h2] at h
      simp at h
  | some c =>
    rw [h1] at h
    cases h2 : lookupA sys'.conns cid with
    | none =>
      rw [h2] at h
      simp at h
    | some c' =>
      rw [h2] at h
      simp at h
      simp [h.1]

theorem firstFlowStage_nodeStatus (f : Flow) (reply : Bool) (conn : ConnData) (cid : Nat)
    (cCount : Nat) (sys2 : SysState) (n : Nat) :
    nodeStatus ((firstFlowStage f reply conn cid cCount sys2).1) n = nodeStatus sys2 n := by
  unfold firstFlowStage
  split
  · split
    · simp only [nodeStatus_learnPair, nodeStatus_seenNowConn]
    · simp only [nodeStatus_seenNowConn]
  · rfl

theorem firstFlowStage_parentHostOf (f : Flow) (reply : Bool) (conn : ConnData) (cid : Nat)
    (cCount : Nat) (sys2 : SysState) (n : Nat) :
    parentHostOf ((firstFlowStage f reply conn cid cCount sys2).1) n = parentHostOf sys2 n := by
  unfold firstFlowStage
  split
  · split
    · simp only [parentHostOf_learnPair, parentHostOf_seenNowConn]
    · simp only [parentHostOf_seenNowConn]
  · rfl

theorem firstFlowStage_connShape (f : Flow) (reply : Bool) (conn : ConnData) (cid : Nat)
    (cCount : Nat) (sys2 : SysState) (n : Nat) :
    connShape ((firstFlowStage f reply conn cid cCount sys2).1) n =
      connShape (seenNowConn sys2 cid) n ∨
    connShape ((firstFlowStage f reply conn cid cCount sys2).1) n = connShape sys2 n := by
  unfold firstFlowStage
  split
  · split
    · exact Or.inl (by simp only [connShape_learnPair])
    · exact Or.inl rfl
  · exact Or.inr rfl

theorem firstFlowStage_connShape_of (f : Flow) (reply : Bool) (conn : ConnData) (cid : Nat)
    (cCount : Nat) (sys2 : SysState) (n : Nat) :
    connShape ((firstFlowStage f reply conn cid cCount sys2).1) n = connShape sys2 n := by
  rcases firstFlowStage_connShape f reply conn cid cCount sys2 n with h | h
  · rw [h, connShape_seenNowConn]
  · exact h

theorem firstFlowStage_of_not_first (f : Flow) (reply : Bool) (conn : ConnData) (cid : Nat)
    (cCount : Nat) (sys2 : SysState) (h : cCount ≠ 1) :
    firstFlowStage f reply conn cid cCount sys2 = (sys2, false, false, false) := by
  unfold firstFlowStage
  rw [if_neg h]

theorem newSessionStage_nodeStatus (f : Flow) (reply newSession : Bool) (conn : ConnData)
    (srcS0 tgtS0 : Bool) (sys3 : SysState) (n : Nat) :
    nodeStatus ((newSessionStage f reply newSession conn srcS0 tgtS0 sys3).1) n =
      nodeStatus sys3 n := by
  unfold newSessionStage
  dsimp only
  repeat' split
  all_goals
    simp only [updateSeenStatus_fst, nodeStatus_setNodeProps, nodeStatus_seenNowNode]

theorem newSessionStage_parentHostOf (f : Flow) (reply newSession : Bool) (conn : ConnData)
    (srcS0 tgtS0 : Bool) (sys3 : SysState) (n : Nat) :
    parentHostOf ((newSessionStage f reply newSession conn srcS0 tgtS0 sys3).1) n =
      parentHostOf sys3 n := by
  unfold newSessionStage
  dsimp only
  repeat' split
  all_goals
    simp only [updateSeenStatus_fst, parentHostOf_setNodeProps, parentHostOf_seenNowNode]

theorem newSessionStage_connShape (f : Flow) (reply newSession : Bool) (conn : ConnData)
    (srcS0 tgtS0 : Bool) (sys3 : SysState) (n : Nat) :
    connShape ((newSessionStage f reply newSession conn srcS0 tgtS0 sys3).1) n =
      connShape sys3 n := by
  unfold newSessionStage
  dsimp only
  repeat' split
  all_goals
    simp only [updateSeenStatus_fst, connShape_setNodeProps, connShape_seenNowNode]

theorem newSessionStage_of_old (f : Flow) (reply : Bool) (conn : ConnData)
    (srcS0 tgtS0 : Bool) (sys3 : SysState) :
    newSessionStage f reply false conn srcS0 tgtS0 sys3 = (sys3, srcS0, tgtS0, []) := rfl

theorem lookupA_mergeConnProps_self (pre : SysState) (cid : Nat) (fp : PropMap)
    (cd : ConnData) (h : lookupA pre.conns cid = some cd) :
    lookupA (mergeConnProps pre cid fp).conns cid =
      some { cd with properties := mergeProps cd.properties fp } := by
  unfold mergeConnProps
  rw [h]
  dsimp only
  exact lookupA_updateConnAt_self pre cid _ cd h

theorem lookupA_mergeProps (fp : PropMap) (p : PropMap) (k : PropKey) :
    lookupA (mergeProps p fp) k =
      match lookupA fp.reverse k with
      | some v => some v
      | none => lookupA p k := by
  induction fp generalizing p with
  | nil => simp [mergeProps]
  | cons h t ih =>
    obtain ⟨k0, v0⟩ := h
    have hstep : mergeProps p ((k0, v0) :: t) = mergeProps (updateA p k0 v0) t := rfl
    rw [hstep, ih]
    have hrev : ((k0, v0) :: t).reverse = t.reverse ++ [(k0, v0)] := by simp
    rw [hrev, lookupA_append]
    cases hr : lookupA t.reverse k with
    | some v => rfl
    | none =>
      simp only
      by_cases hk : k0 = k
      · subst hk
        rw [lookupA_updateA]
        simp
      · rw [lookupA_updateA_ne p k0 k v0 hk]
        simp [hk]

theorem lookupA_mergeProps_idem (p fp : PropMap) (k : PropKey) :
    lookupA (mergeProps (mergeProps p fp) fp) k = lookupA (mergeProps p fp) k := by
  rw [lookupA_mergeProps, lookupA_mergeProps]
  cases hr : lookupA fp.reverse k with
  | some v => rfl
  | none => simp only

theorem expectedVerdict_mergeProps_idem (p fp : PropMap) :
    expectedVerdict (mergeProps (mergeProps p fp) fp) = expectedVerdict (mergeProps p fp) := by
  rw [expectedVerdict, expectedVerdict, lookupA_mergeProps_idem]

/-- Inversion of a successful `connectionCore` call: the resolved connection
exists and is no placeholder, and the final state is the merge stage applied
to an intermediate system whose node statuses agree with the
placeholder-fixed matcher output, whose parent-host map and connection
shapes agree with the matcher output, together with the explicit counter,
session and known-host updates. -/
theorem connectionCore_ok_inv (st : InspState) (f : Flow) (sysm : SysState) (cid : Nat)
    (reply : Bool) (st1 : InspState) (n1 : List Notif)
    (h : connectionCore st f sysm cid reply = Except.ok (st1, n1)) :
    ∃ conn, lookupA sysm.conns cid = some conn ∧ conn.status ≠ Status.PLACEHOLDER ∧
    ∃ sys4 : SysState,
      st1.sys = (if conn.status = Status.EXPECTED then mergeConnProps sys4 cid f.properties
        else sys4) ∧
      (∀ n, nodeStatus sys4 n =
        nodeStatus (fixPlaceholder (fixPlaceholder sysm conn.source conn.status)
          conn.target conn.status) n) ∧
      (∀ n, parentHostOf sys4 n = parentHostOf sysm n) ∧
      (∀ n, connShape sys4 n = connShape sysm n) ∧
      st1.connectionCount =
        updateA st.connectionCount cid ((lookupA st.connectionCount cid).getD 0 + 1) ∧
      st1.sessions =
        (if (lookupA st.sessions f).isNone then updateA st.sessions f reply
          else st.sessions) ∧
      st1.knownHosts = addKnown (addKnown st.knownHosts (parentHostOf sysm conn.source))
        (parentHostOf sysm conn.target) := by
  unfold connectionCore at h
  cases hconn : lookupA sysm.conns cid with
  | none =>
    rw [hconn] at h
    cases h
  | some conn =>
    rw [hconn] at h
    dsimp only at h
    by_cases hph : conn.status = Status.PLACEHOLDER
    · rw [if_pos hph] at h
      cases h
    · rw [if_neg hph] at h
      rw [Except.ok.injEq, Prod.mk.injEq] at h
      obtain ⟨hA, hB⟩ := h
      refine ⟨conn, rfl, hph, _, congrArg InspState.sys hA.symm, ?_, ?_, ?_, ?_, ?_, ?_⟩
      · intro n
        simp only [newSessionStage_nodeStatus, firstFlowStage_nodeStatus]
      · intro n
        simp only [newSessionStage_parentHostOf, firstFlowStage_parentHostOf,
          parentHostOf_fixPlaceholder]
      · intro n
        simp only [newSessionStage_connShape, firstFlowStage_connShape_of,
          connShape_fixPlaceholder]
      · exact congrArg InspState.connectionCount hA.symm
      · exact congrArg InspState.sessions hA.symm
      · have hk := congrArg InspState.knownHosts hA.symm
        rw [hk]
        simp only [parentHostOf_fixPlaceholder]

/-- Inversion of a successful `connectionStep` call down to
`connectionCore`. -/
theorem connectionStep_ok_inv (M : Type) (co : Collab M) (m0 : M) (st0 : InspState)
    (f : Flow) (m1 : M) (st1 : InspState) (cid : Nat) (n1 : List Notif)
    (h : connectionStep co m0 st0 f = Except.ok (m1, st1, cid, n1)) :
    m1 = (co.matcher m0 st0.sys f).1 ∧ cid = (co.matcher m0 st0.sys f).2.2.1 ∧
    connectionCore st0 f (co.matcher m0 st0.sys f).2.1 (co.matcher m0 st0.sys f).2.2.1
      (co.matcher m0 st0.sys f).2.2.2 = Except.ok (st1, n1) := by
  unfold connectionStep at h
  dsimp only at h
  cases hcc : connectionCore st0 f (co.matcher m0 st0.sys f).2.1
      (co.matcher m0 st0.sys f).2.2.1 (co.matcher m0 st0.sys f).2.2.2 with
  | error e =>
    rw [hcc] at h
    cases h
  | ok r =>
    rw [hcc] at h
    obtain ⟨st', ns⟩ := r
    rw [Except.ok.injEq, Prod.mk.injEq, Prod.mk.injEq, Prod.mk.injEq] at h
    obtain ⟨hm, hst, hcid, hns⟩ := h
    exact ⟨hm.symm, hcid.symm, by rw [hst, hns]⟩

/-- Verdict stored in a connection's EXPECTED property, if the connection
exists. -/
def connVerdict (sys : SysState) (cid : Nat) : Option (Option Verdict) :=
  (lookupA sys.conns cid).map (fun c => expectedVerdict c.properties)

/-- Computation of `connectionCore` on a state that has already processed
the same flow: the counter is bumped, everything else is the conditional
re-merge of the flow properties, and no notification is emitted. -/
theorem connectionCore_replay (st1 : InspState) (f : Flow) (cid : Nat) (r2 : Bool)
    (conn1 : ConnData) (c1 : Nat)
    (hconn1 : lookupA st1.sys.conns cid = some conn1)
    (hph1 : conn1.status ≠ Status.PLACEHOLDER)
    (hcnt1 : lookupA st1.connectionCount cid = some c1)
    (hc1pos : c1 ≠ 0)
    (hsess1 : (lookupA st1.sessions f).isNone = false)
    (hfix1 : nodeStatus st1.sys conn1.source ≠ some Status.PLACEHOLDER)
    (hfix2 : nodeStatus st1.sys conn1.target ≠ some Status.PLACEHOLDER)
    (hmem1 : parentHostOf st1.sys conn1.source ∈ st1.knownHosts)
    (hmem2 : parentHostOf st1.sys conn1.target ∈ st1.knownHosts) :
    connectionCore st1 f st1.sys cid r2 =
      Except.ok (⟨(if conn1.status = Status.EXPECTED then mergeConnProps st1.sys cid f.properties else st1.sys), updateA st1.connectionCount cid (c1 + 1), st1.sessions, st1.knownHosts⟩, []) := by
  unfold connectionCore
  rw [hconn1]
  dsimp only
  rw [if_neg hph1, hcnt1, hsess1]
  simp only [Option.getD_some, Bool.false_eq_true, if_false]
  rw [fixPlaceholder_of_not_ph st1.sys conn1.source conn1.status hfix1]
  rw [fixPlaceholder_of_not_ph st1.sys conn1.target conn1.status hfix2]
  rw [addKnown_of_mem _ _ hmem1, addKnown_of_mem _ _ hmem2]
  simp only [firstFlowStage_of_not_first f r2 conn1 cid (c1 + 1) st1.sys (by omega),
    newSessionStage_of_old]
  simp

/-! ## Claim C2 -/

/-- C2: replaying the identical flow immediately after processing it emits
no listener notification on the second call and leaves all node data, the
session table, the known hosts, and the resolved connection's status and
EXPECTED verdict exactly as after the first call.  The matcher is abstract;
the hypothesis `hreplay` is its §4.1 contract at the replay point: the
already-resolved flow maps to the same connection, in the established
direction, without touching the system. -/
theorem C2_flow_replay_idempotent (M : Type) (co : Collab M) (m0 m1 : M)
    (st0 st1 : InspState) (f : Flow) (cid : Nat) (n1 : List Notif) (r2 : Bool)
    (h1 : connectionStep co m0 st0 f = Except.ok (m1, st1, cid, n1))
    (hreplay : co.matcher m1 st1.sys f = (m1, st1.sys, cid, r2)) :
    ∃ st2 : InspState,
      connectionStep co m1 st1 f = Except.ok (m1, st2, cid, []) ∧
      st2.sys.nodes = st1.sys.nodes ∧
      st2.sessions = st1.sessions ∧
      st2.knownHosts = st1.knownHosts ∧
      connStatus st2.sys cid = connStatus st1.sys cid ∧
      connVerdict st2.sys cid = connVerdict st1.sys cid := by
  obtain ⟨hm, hcid, hcc⟩ := connectionStep_ok_inv M co m0 st0 f m1 st1 cid n1 h1
  obtain ⟨conn, hconn, hph, sys4, hsys, hns, hpar, hshape, hcnt, hsess, hkh⟩ :=
    connectionCore_ok_inv st0 f (co.matcher m0 st0.sys f).2.1 cid
      (co.matcher m0 st0.sys f).2.2.2 st1 n1 (by rw [hcid]; exact hcc)
  -- node data of st1 agrees with sys4
  have hnodes1 : st1.sys.nodes = sys4.nodes := by
    rw [hsys]
    by_cases hstat : conn.status = Status.EXPECTED
    · rw [if_pos hstat]
      exact mergeConnProps_nodes sys4 cid f.properties
    · rw [if_neg hstat]
  -- the connection in st1
  have hshape1 : connShape st1.sys cid = some (conn.status, conn.source, conn.target) := by
    have h4 : connShape sys4 cid = some (conn.status, conn.source, conn.target) := by
      rw [hshape cid, connShape, hconn]
      rfl
    rw [hsys]
    by_cases hstat : conn.status = Status.EXPECTED
    · rw [if_pos hstat, connShape_mergeConnProps]
      exact h4
    · rw [if_neg hstat]
      exact h4
  have hconn1x : ∃ conn1, lookupA st1.sys.conns cid = some conn1 ∧
      conn1.status = conn.status ∧ conn1.source = conn.source ∧
      conn1.target = conn.target := by
    rw [connShape] at hshape1
    cases hc : lookupA st1.sys.conns cid with
    | none =>
      rw [hc] at hshape1
      simp at hshape1
    | some c =>
      rw [hc] at hshape1
      simp only [Option.map_some', Option.some.injEq] at hshape1
      exact ⟨c, rfl, congrArg Prod.fst hshape1,
        congrArg Prod.fst (congrArg Prod.snd hshape1),
        congrArg Prod.snd (congrArg Prod.snd hshape1)⟩
  obtain ⟨conn1, hconn1, hst1, hsrc1, htgt1⟩ := hconn1x
  -- counter and sessions after the first call
  have hcnt1 : lookupA st1.connectionCount cid =
      some ((lookupA st0.connectionCount cid).getD 0 + 1) := by
    rw [hcnt]
    exact lookupA_updateA _ _ _
  have hsess1 : (lookupA st1.sessions f).isNone = false := by
    rw [hsess]
    by_cases hn : (lookupA st0.sessions f).isNone
    · rw [if_pos hn, lookupA_updateA]
      rfl
    · rw [if_neg hn]
      cases hl : lookupA st0.sessions f with
      | none => exact absurd (by rw [hl]; rfl) hn
      | some b => rfl
  -- endpoint statuses are no placeholders in st1
  have hfixbase : ∀ n, nodeStatus st1.sys n = nodeStatus sys4 n :=
    fun n => nodeStatus_of_nodes_eq _ _ hnodes1 n
  have hfix1 : nodeStatus st1.sys conn1.source ≠ some Status.PLACEHOLDER := by
    rw [hsrc1, hfixbase, hns]
    apply nodeStatus_fixPlaceholder_not_ph _ _ _ hph
    exact nodeStatus_fixPlaceholder_target _ _ _ hph
  have hfix2 : nodeStatus st1.sys conn1.target ≠ some Status.PLACEHOLDER := by
    rw [htgt1, hfixbase, hns]
    exact nodeStatus_fixPlaceholder_target _ _ _ hph
  -- parent hosts of the endpoints are known in st1
  have hparbase : ∀ n, parentHostOf st1.sys n = parentHostOf (co.matcher m0 st0.sys f).2.1 n :=
    fun n => (parentHostOf_of_nodes_eq _ _ hnodes1 n).trans (hpar n)
  have hmem1 : parentHostOf st1.sys conn1.source ∈ st1.knownHosts := by
    rw [hsrc1, hparbase, hkh]
    exact mem_addKnown_of_mem _ _ _ (mem_addKnown_self _ _)
  have hmem2 : parentHostOf st1.sys conn1.target ∈ st1.knownHosts := by
    rw [htgt1, hparbase, hkh]
    exact mem_addKnown_self _ _
  -- the second call
  have hcore2 := connectionCore_replay st1 f cid r2 conn1
    ((lookupA st0.connectionCount cid).getD 0 + 1) hconn1
    (by rw [hst1]; exact hph) hcnt1 (by omega) hsess1 hfix1 hfix2 hmem1 hmem2
  refine ⟨⟨(if conn1.status = Status.EXPECTED then mergeConnProps st1.sys cid f.properties else st1.sys), updateA st1.connectionCount cid ((lookupA st0.connectionCount cid).getD 0 + 1 + 1), st1.sessions, st1.knownHosts⟩, ?_, ?_, rfl, rfl, ?_, ?_⟩
  · unfold connectionStep
    rw [hreplay]
    dsimp only
    rw [hcore2]
  · by_cases hstat : conn1.status = Status.EXPECTED
    · show (if conn1.status = Status.EXPECTED then mergeConnProps st1.sys cid f.properties else st1.sys).nodes = st1.sys.nodes
      rw [if_pos hstat]
      exact mergeConnProps_nodes st1.sys cid f.properties
    · show (if conn1.status = Status.EXPECTED then mergeConnProps st1.sys cid f.properties else st1.sys).nodes = st1.sys.nodes
      rw [if_neg hstat]
  · by_cases hstat : conn1.status = Status.EXPECTED
    · show connStatus (if conn1.status = Status.EXPECTED then mergeConnProps st1.sys cid f.properties else st1.sys) cid = connStatus st1.sys cid
      rw [if_pos hstat]
      exact connStatus_of_connShape _ _ _ (connShape_mergeConnProps st1.sys cid f.properties cid)
    · show connStatus (if conn1.status = Status.EXPECTED then mergeConnProps st1.sys cid f.properties else st1.sys) cid = connStatus st1.sys cid
      rw [if_neg hstat]
  · by_cases hstat : conn1.status = Status.EXPECTED
    · show connVerdict (if conn1.status = Status.EXPECTED then mergeConnProps st1.sys cid f.properties else st1.sys) cid = connVerdict st1.sys cid
      rw [if_pos hstat]
      -- the flow properties were already merged in the first call
      have hstatc : conn.status = Status.EXPECTED := by rw [← hst1]; exact hstat
      have hprops1 : ∃ p4, conn1.properties = mergeProps p4 f.properties := by
        have hsys' := hsys
        rw [if_pos hstatc] at hsys'
        have h4 : ∃ cd4, lookupA sys4.conns cid = some cd4 := by
          have := hshape cid
          rw [connShape, connShape, hconn] at this
          cases hc : lookupA sys4.conns cid with
          | none =>
            rw [hc] at this
            simp at this
          | some cd4 => exact ⟨cd4, rfl⟩
        obtain ⟨cd4, hcd4⟩ := h4
        refine ⟨cd4.properties, ?_⟩
        have := lookupA_mergeConnProps_self sys4 cid f.properties cd4 hcd4
        rw [← hsys'] at this
        rw [hconn1] at this
        simpa using congrArg (Option.map ConnData.properties) this
      obtain ⟨p4, hp4⟩ := hprops1
      rw [connVerdict, connVerdict,
        lookupA_mergeConnProps_self st1.sys cid f.properties conn1 hconn1, hconn1]
      simp only [Option.map_some']
      rw [hp4, expectedVerdict_mergeProps_idem]
    · show connVerdict (if conn1.status = Status.EXPECTED then mergeConnProps st1.sys cid f.properties else st1.sys) cid = connVerdict st1.sys cid
      rw [if_neg hstat]

/-! ## Claim C7 -/

/-- C7: the flow-carried properties are merged into the resolved
connection's property map exactly when the connection's status is Expected:
a successful `Inspector.connection` call factors as a pre-merge system `pre`
(whose connection entry `cd` carries the status reported by the matcher)
followed by the conditional merge; when the status is not Expected the final
system *is* `pre` and the connection's property map carries no trace of the
flow's properties. -/
theorem C7_flow_properties_merged_iff_expected (M : Type) (co : Collab M) (m0 : M)
    (st0 : InspState) (f : Flow) (m1 : M) (st1 : InspState) (cid : Nat) (n1 : List Notif)
    (h1 : connectionStep co m0 st0 f = Except.ok (m1, st1, cid, n1)) :
    ∃ (pre : SysState) (cd : ConnData),
      lookupA pre.conns cid = some cd ∧
      connStatus st1.sys cid = some cd.status ∧
      st1.sys.nodes = pre.nodes ∧
      (cd.status = Status.EXPECTED →
        st1.sys = mergeConnProps pre cid f.properties ∧
        connProps st1.sys cid = some (mergeProps cd.properties f.properties)) ∧
      (cd.status ≠ Status.EXPECTED →
        st1.sys = pre ∧ connProps st1.sys cid = some cd.properties) := by
  obtain ⟨hm, hcid, hcc⟩ := connectionStep_ok_inv M co m0 st0 f m1 st1 cid n1 h1
  obtain ⟨conn, hconn, hph, sys4, hsys, hns, hph2, hshape, hcnt, hsess, hkh⟩ :=
    connectionCore_ok_inv st0 f (co.matcher m0 st0.sys f).2.1 cid
      (co.matcher m0 st0.sys f).2.2.2 st1 n1 (by rw [hcid]; exact hcc)
  have hshc := hshape cid
  rw [connShape, connShape, hconn] at hshc
  cases hcd : lookupA sys4.conns cid with
  | none =>
    rw [hcd] at hshc
    simp at hshc
  | some cd =>
    rw [hcd] at hshc
    simp only [Option.map_some'] at hshc
    have hcds : cd.status = conn.status := (Prod.mk.injEq _ _ _ _ ▸ Option.some.injEq _ _ ▸ hshc).1
    refine ⟨sys4, cd, hcd, ?_, ?_, ?_, ?_⟩
    · by_cases hstat : conn.status = Status.EXPECTED
      · rw [hsys, if_pos hstat, connStatus,
          lookupA_mergeConnProps_self sys4 cid f.properties cd hcd]
        simp [hcds]
      · rw [hsys, if_neg hstat, connStatus, hcd]
        simp
    · by_cases hstat : conn.status = Status.EXPECTED
      · rw [hsys, if_pos hstat]
        exact mergeConnProps_nodes sys4 cid f.properties
      · rw [hsys, if_neg hstat]
    · intro hexp
      have hstat : conn.status = Status.EXPECTED := by rw [← hcds]; exact hexp
      constructor
      · rw [hsys, if_pos hstat]
      · rw [hsys, if_pos hstat, connProps,
          lookupA_mergeConnProps_self sys4 cid f.properties cd hcd]
        rfl
    · intro hexp
      have hstat : conn.status ≠ Status.EXPECTED := by rw [← hcds]; exact hexp
      constructor
      · rw [hsys, if_neg hstat]
      · rw [hsys, if_neg hstat, connProps, hcd]
        rfl

/-! ## Claim C1 -/

/-- C1: for every entity, `Entity.set_seen_now` sets the EXPECTED property
verdict to Pass when the status is Expected and to Fail when it is
Unexpected, leaves everything unchanged for Placeholder/External, returns
the new verdict exactly when the stored value changed, and repeating the
observation is a no-op that reports no change. -/
theorem C1_set_seen_now_rule (st : Status) (props : PropMap) :
    (st = Status.EXPECTED ∨ st = Status.UNEXPECTED →
      (expectedVerdict (set_seen_now st props).2 =
        some (if st = Status.EXPECTED then Verdict.PASS else Verdict.FAIL)) ∧
      ((set_seen_now st props).1 = none ↔
        lookupA props Properties.EXPECTED =
          some (PropValue.verdict (if st = Status.EXPECTED then Verdict.PASS else Verdict.FAIL))) ∧
      ((set_seen_now st props).1 = none → (set_seen_now st props).2 = props) ∧
      ((set_seen_now st props).1 ≠ none →
        (set_seen_now st props).1 =
          some (if st = Status.EXPECTED then Verdict.PASS else Verdict.FAIL) ∧
        (set_seen_now st props).2 = updateA props Properties.EXPECTED
          (PropValue.verdict (if st = Status.EXPECTED then Verdict.PASS else Verdict.FAIL)))) ∧
    (st = Status.PLACEHOLDER ∨ st = Status.EXTERNAL →
      set_seen_now st props = (none, props)) ∧
    set_seen_now st (set_seen_now st props).2 = (none, (set_seen_now st props).2) := by
  refine ⟨?_, ?_, ?_⟩
  · rintro (rfl | rfl)
    · by_cases h : lookupA props Properties.EXPECTED = some (PropValue.verdict Verdict.PASS) <;>
        simp [set_seen_now, h, expectedVerdict, lookupA_updateA, PropValue.verdictOf]
    · by_cases h : lookupA props Properties.EXPECTED = some (PropValue.verdict Verdict.FAIL) <;>
        simp [set_seen_now, h, expectedVerdict, lookupA_updateA, PropValue.verdictOf]
  · rintro (rfl | rfl) <;> simp [set_seen_now]
  · cases st with
    | EXPECTED =>
      by_cases h : lookupA props Properties.EXPECTED = some (PropValue.verdict Verdict.PASS) <;>
        simp [set_seen_now, h, lookupA_updateA]
    | UNEXPECTED =>
      by_cases h : lookupA props Properties.EXPECTED = some (PropValue.verdict Verdict.FAIL) <;>
        simp [set_seen_now, h, lookupA_updateA]
    | PLACEHOLDER => simp [set_seen_now]
    | EXTERNAL => simp [set_seen_now]

/-- Witness for C1 at a concrete input: an Expected entity with an empty
property map gets verdict Pass. -/
theorem C1_set_seen_now_rule_witness :
    expectedVerdict (set_seen_now Status.EXPECTED []).2 =
      some (if Status.EXPECTED = Status.EXPECTED then Verdict.PASS else Verdict.FAIL) :=
  ((C1_set_seen_now_rule Status.EXPECTED []).1 (Or.inl rfl)).1

/-! ## Claim C5 -/

theorem resolve_undefined_left (b : Verdict) : Verdict.resolve Verdict.UNDEFINED b = b := by
  cases b <;> decide

theorem foldl_resolveOpt (l : List Verdict) (acc : Option Verdict) :
    ((l.foldl resolveOpt acc).getD Verdict.UNDEFINED) =
      l.foldl Verdict.resolve (acc.getD Verdict.UNDEFINED) := by
  induction l generalizing acc with
  | nil => rfl
  | cons h t ih =>
    simp only [List.foldl_cons, ih]
    rfl

theorem props_fold_filterMap (props : List (PropKey × PropValue)) (acc : Option Verdict) :
    props.foldl (fun v p => match p.2.verdictOf with
        | some w => resolveOpt v w
        | none => v) acc =
      (props.filterMap (fun p => p.2.verdictOf)).foldl resolveOpt acc := by
  induction props generalizing acc with
  | nil => rfl
  | cons h t ih =>
    cases hv : h.2.verdictOf <;> simp [List.filterMap_cons, hv, ih]

/-- C5: `Verdict.resolve` is total over all verdict pairs, commutative,
associative, has `Undefined` as identity, and is the fold that
`Entity.get_verdict` uses to aggregate child and property verdicts. -/
theorem C5_resolve_algebra :
    (∀ a b : Verdict, Verdict.resolve a b = Verdict.resolve b a) ∧
    (∀ a b c : Verdict,
      Verdict.resolve (Verdict.resolve a b) c = Verdict.resolve a (Verdict.resolve b c)) ∧
    (∀ a : Verdict, Verdict.resolve Verdict.UNDEFINED a = a ∧
      Verdict.resolve a Verdict.UNDEFINED = a) ∧
    (∀ (props : PropMap) (children : List VEntity),
      VEntity.get_verdict (VEntity.mk props children) =
        (children.map VEntity.get_verdict ++
          props.filterMap (fun p => p.2.verdictOf)).foldl Verdict.resolve Verdict.UNDEFINED) := by
  refine ⟨fun a b => by cases a <;> cases b <;> decide,
    fun a b c => by cases a <;> cases b <;> cases c <;> decide,
    fun a => by cases a <;> decide, ?_⟩
  intro props children
  rw [VEntity.get_verdict]
  simp only [List.foldl_append]
  rw [props_fold_filterMap, foldl_resolveOpt]
  have hch : (children.attach.foldl (fun v c => resolveOpt v c.1.get_verdict) none) =
      (children.map VEntity.get_verdict).foldl resolveOpt none := by
    rw [List.foldl_map]
    rw [← List.foldl_attach children (fun v c => resolveOpt v c.get_verdict) none]
  rw [hch]
  have := foldl_resolveOpt (children.map VEntity.get_verdict) none
  simp only [Option.getD_none] at this
  rw [this]

/-! ## Claim C9 -/

/-- C9 counterexample: an event whose kind is not in the registry is
processed without any error and without any effect — `put_event` stores
nothing and `read_events` yields nothing for an unknown row type; both are
silent drops, not propagated errors. -/
theorem C9_unknown_event_dropped_counterexample :
    putEvent [] ⟨EventKind.unknownKind "custom-kind", 7⟩ = [] ∧
    readEvents [⟨"custom-kind", 7⟩] = [] := by
  constructor
  · rfl
  · simp [readEvents, kindOfTypeName]

/-- C9 amended: `put_event` silently ignores an event whose class is not in
the `event_names` registry (nothing stored, no error) and stores known
events; `read_events` silently skips rows whose type string is not in the
`event_types` registry. -/
theorem C9_unknown_events_skipped (rows : List EventRow) (e : DBEvent) :
    (eventTypeName e.kind = none → putEvent rows e = rows) ∧
    (∀ t, eventTypeName e.kind = some t → putEvent rows e = rows ++ [⟨t, e.payload⟩]) ∧
    (∀ r : EventRow, kindOfTypeName r.typ = none →
      readEvents (rows ++ [r]) = readEvents rows) := by
  refine ⟨fun h => ?_, fun t h => ?_, fun r h => ?_⟩
  · simp [putEvent, h]
  · simp [putEvent, h]
  · simp [readEvents, h]

/-- Witness for C9 at a concrete input: a well-known flow row is read back,
an unknown row alongside it is skipped. -/
theorem C9_unknown_events_skipped_witness :
    readEvents ([⟨"flow-ip", 1⟩] ++ [⟨"weird", 2⟩]) = readEvents [⟨"flow-ip", 1⟩] :=
  (C9_unknown_events_skipped [⟨"flow-ip", 1⟩] ⟨EventKind.flowIp, 1⟩).2.2 ⟨"weird", 2⟩ (by decide)

/-! ## Claim C10 -/

/-- The invariant `InMemoryDatabase` maintains between `ids` and
`reverse_id`: they have the same size, every stored ID points back to its
entity, and every ID below the size is assigned. -/
def IMDBInv (db : InMemoryDB) : Prop :=
  db.reverse_id.length = db.ids.length ∧
  (∀ e i, lookupA db.ids e = some i → db.reverse_id.get? i = some e) ∧
  (∀ i, i < db.ids.length → ∃ e, lookupA db.ids e = some i)

theorem IMDBInv_empty : IMDBInv ⟨[], []⟩ := by
  refine ⟨rfl, ?_, ?_⟩
  · intro e i h
    simp [lookupA] at h
  · intro i h
    simp at h

theorem imdbGetId_inv (db : InMemoryDB) (e : Nat) (h : IMDBInv db) :
    IMDBInv (imdbGetId db e).1 := by
  obtain ⟨hlen, hback, hsur⟩ := h
  unfold imdbGetId
  cases hc : lookupA db.ids e with
  | some i => exact ⟨hlen, hback, hsur⟩
  | none =>
    refine ⟨by simp [hlen], ?_, ?_⟩
    · intro e' i hi
      rw [lookupA_append] at hi
      cases hc' : lookupA db.ids e' with
      | some j =>
        rw [hc'] at hi
        have hji : j = i := by simpa using hi
        subst hji
        have hb := hback e' j hc'
        have hlt : j < db.reverse_id.length := (List.get?_eq_some.mp hb).1
        rw [List.get?_append hlt]
        exact hb
      | none =>
        rw [hc'] at hi
        simp only [lookupA] at hi
        by_cases he : e = e'
        · subst he
          simp at hi
          subst hi
          rw [List.get?_append_right (by omega), hlen]
          simp
        · simp [he] at hi
    · intro i hi
      simp only [List.length_append, List.length_singleton] at hi
      by_cases hlt : i < db.ids.length
      · obtain ⟨e', he'⟩ := hsur i hlt
        refine ⟨e', ?_⟩
        rw [lookupA_append, he']
      · have : i = db.ids.length := by omega
        refine ⟨e, ?_⟩
        rw [lookupA_append, hc, this]
        simp

/-- C10 counterexample: after registering a single entity (object 7, which
receives ID 0), `get_entity(-1)` returns that entity via Python negative
indexing instead of returning None, although the integer -1 was never
assigned as an ID (the only assigned ID is 0). -/
theorem C10_get_entity_negative_counterexample :
    imdbGetEntity (imdbGetId ⟨[], []⟩ 7).1 (-1) = Except.ok (some 7) ∧
    lookupA (imdbGetId ⟨[], []⟩ 7).1.ids 7 = some 0 := by
  constructor <;> rfl

/-- C10 amended: for an `InMemoryDatabase` satisfying its representation
invariant, `get_entity(get_id(e))` returns `e`, a second `get_id(e)` returns
the same ID without changing the store, the invariant is preserved, and
`get_entity(i)` returns None for every *nonnegative* integer `i` that was
never assigned (a negative argument instead indexes from the end of the
assignment list, per Python list semantics). -/
theorem C10_imdb_roundtrip (db : InMemoryDB) (e : Nat) (h : IMDBInv db) :
    imdbGetEntity (imdbGetId db e).1 ((imdbGetId db e).2 : Int) = Except.ok (some e) ∧
    imdbGetId (imdbGetId db e).1 e = imdbGetId db e ∧
    IMDBInv (imdbGetId db e).1 ∧
    (∀ j : Nat, (∀ e', lookupA (imdbGetId db e).1.ids e' ≠ some j) →
      imdbGetEntity (imdbGetId db e).1 (j : Int) = Except.ok none) := by
  obtain ⟨hlen, hback, hsur⟩ := h
  have hinv := imdbGetId_inv db e ⟨hlen, hback, hsur⟩
  have hcached : lookupA (imdbGetId db e).1.ids e = some (imdbGetId db e).2 := by
    unfold imdbGetId
    cases hc : lookupA db.ids e with
    | some i => simpa using hc
    | none =>
      simp only
      rw [lookupA_append, hc]
      simp
  refine ⟨?_, ?_, hinv, ?_⟩
  · obtain ⟨hlen', hback', hsur'⟩ := hinv
    have hb := hback' e _ hcached
    have hlt : (imdbGetId db e).2 < (imdbGetId db e).1.reverse_id.length :=
      (List.get?_eq_some.mp hb).1
    unfold imdbGetEntity
    rw [if_pos (by exact_mod_cast hlt), if_pos (by positivity)]
    rw [show (((imdbGetId db e).2 : Int)).toNat = (imdbGetId db e).2 by simp]
    rw [hb]
  · have h2 : ∀ q : InMemoryDB × Nat, lookupA q.1.ids e = some q.2 → imdbGetId q.1 e = q := by
      intro q hq
      unfold imdbGetId
      rw [hq]
    exact h2 (imdbGetId db e) hcached
  · intro j hj
    obtain ⟨hlen', hback', hsur'⟩ := hinv
    have hge : (imdbGetId db e).1.ids.length ≤ j := by
      by_contra hlt
      push_neg at hlt
      obtain ⟨e', he'⟩ := hsur' j hlt
      exact hj e' he'
    have hcond : ¬((j : Int) < ((imdbGetId db e).1.reverse_id.length : Int)) := by
      rw [hlen']
      exact_mod_cast Nat.not_lt.mpr hge
    unfold imdbGetEntity
    rw [if_neg hcond]

/-- Witness for C10 at a concrete input: registering object 42 in the empty
store and reading it back. -/
theorem C10_imdb_roundtrip_witness :
    imdbGetEntity (imdbGetId ⟨[], []⟩ 42).1 ((imdbGetId ⟨[], []⟩ 42).2 : Int) =
      Except.ok (some 42) :=
  (C10_imdb_roundtrip ⟨[], []⟩ 42 IMDBInv_empty).1

/-! ## Concrete demonstration system

A small collaborator and model used to exercise the inspector on concrete
inputs. -/

/-- Modelled from the spec: the exact-address-match branch of
`IoTSystem.get_endpoint` (§4.1 lookup order), sufficient for systems where
the queried address is bound to a declared node; no entity creation. -/
def exactGetEndpoint (sys : SysState) (a : Address) : SysState × Nat :=
  (sys, ((sys.nodes.find? (fun p => decide (a ∈ p.2.addresses))).map (·.1)).getD 0)

/-- A collaborator whose matcher resolves nothing new (it reports connection
0 without touching the system) and whose address lookup is the exact-match
lookup; used to exercise the inspector on concrete states. -/
def plainCollab : Collab Unit :=
  { matcher := fun m sys _ => (m, sys, 0, false)
    learnNamedAddress := fun sys _ _ => (sys, 0)
    getEndpoint := exactGetEndpoint }

/-- A declared host with no addresses, its own parent. -/
def plainHost (nid : Nat) : NodeData :=
  { isService := false, clientSide := false, protocol := Protocol.udp
    status := Status.EXPECTED, properties := [], parentHost := nid, children := []
    isMulticast := false, relevant := true, externalActivity := ExternalActivity.BANNED
    ignoreNameRequests := [], addresses := [], addressPairs := [] }

/-- A collaborator whose matcher always resolves to connection 10 in the
forward direction without touching the system, modelling a declared
connection already present in the graph. -/
def flowCollab : Collab Unit :=
  { matcher := fun m sys _ => (m, sys, 10, false)
    learnNamedAddress := fun sys _ _ => (sys, 0)
    getEndpoint := exactGetEndpoint }

/-- A concrete non-IP flow carrying one property. -/
def demoFlow : Flow :=
  { isIP := false, sourceHw := HostAddr.hw "a", sourceIp := HostAddr.ipa "b"
    sourcePort := 1, targetHw := HostAddr.hw "c", targetIp := HostAddr.ipa "d"
    targetPort := 2, protocol := Protocol.udp
    properties := [(⟨"p", false⟩, PropValue.other 9)] }

/-- Initial state: hosts 1 and 2 and the declared Expected connection 10
between them, no flows seen yet. -/
def flowDemoSt : InspState :=
  ⟨⟨[(1, plainHost 1), (2, plainHost 2)], [(10, ⟨1, 2, Status.EXPECTED, []⟩)]⟩, [], [], []⟩

/-- The state after `demoFlow` is processed once on `flowDemoSt`: host 1 and
the connection turn Pass, the flow property is merged, the session and
counter are recorded. -/
def flowDemoRes : InspState :=
  ⟨⟨[(1, { plainHost 1 with properties := [(Properties.EXPECTED, PropValue.verdict Verdict.PASS)] }),
      (2, plainHost 2)],
    [(10, ⟨1, 2, Status.EXPECTED,
      [(Properties.EXPECTED, PropValue.verdict Verdict.PASS), (⟨"p", false⟩, PropValue.other 9)]⟩)]⟩,
    [(10, 1)], [(demoFlow, false)], [1, 2]⟩

/-- The notifications of the first `demoFlow` call. -/
def flowDemoNotifs : List Notif :=
  [Notif.propertyChange 1 Verdict.PASS, Notif.hostChange 1, Notif.connectionChange 10]

/-! ## Claim C6 -/

/-- An unexpected host bound to address 10.0.0.9, used to probe the
property-update drop rules. -/
def unexNode : NodeData :=
  { isService := false, clientSide := false, protocol := Protocol.udp
    status := Status.UNEXPECTED, properties := [], parentHost := 1, children := []
    isMulticast := false, relevant := true, externalActivity := ExternalActivity.BANNED
    ignoreNameRequests := [], addresses := [Address.host (HostAddr.ipa "10.0.0.9")]
    addressPairs := [] }

/-- Inspector state holding only the unexpected host. -/
def unexSt : InspState := ⟨⟨[(1, unexNode)], []⟩, [], [], []⟩

/-- C6 counterexample: a `PropertyAddressUpdate` aimed at an Unexpected
entity is *not* dropped — the code path has no status check: the update is
applied and the entity is even marked seen (EXPECTED verdict Fail is
recorded), so the property map changes. -/
theorem C6_address_update_not_dropped_counterexample :
    nodeStatus unexSt.sys 1 = some Status.UNEXPECTED ∧
    nodeProps unexSt.sys 1 = some [] ∧
    (propertyAddressUpdateStep plainCollab unexSt (Address.host (HostAddr.ipa "10.0.0.9"))
        ⟨"prop-a", false⟩ (PropValue.other 5)).map (fun r => nodeProps r.1.sys 1) =
      Except.ok (some [(Properties.EXPECTED, PropValue.verdict Verdict.FAIL),
        (⟨"prop-a", false⟩, PropValue.other 5)]) := by
  refine ⟨rfl, rfl, ?_⟩
  rfl

/-- C6 amended: `property_update` does drop updates whose target has status
Placeholder or Unexpected (property map and state unchanged, no
notification), for node and connection targets alike; `property_address_update`
however applies the update regardless of the target's status — the target is
resolved by address, marked seen, and the key/value is written unless the
key is model-only and absent. -/
theorem C6_property_update_drop_rules :
    (∀ (st : InspState) (ev : PropertyEvent) (nid : Nat) (d : NodeData),
      ev.target = EntityRef.node nid → lookupA st.sys.nodes nid = some d →
      (d.status = Status.PLACEHOLDER ∨ d.status = Status.UNEXPECTED) →
      propertyUpdateStep st ev = (st, [])) ∧
    (∀ (st : InspState) (ev : PropertyEvent) (cid : Nat) (c : ConnData),
      ev.target = EntityRef.conn cid → lookupA st.sys.conns cid = some c →
      (c.status = Status.PLACEHOLDER ∨ c.status = Status.UNEXPECTED) →
      propertyUpdateStep st ev = (st, [])) ∧
    (∀ (M : Type) (co : Collab M) (st : InspState) (addr : Address) (key : PropKey)
      (val : PropValue) (sys1 : SysState) (nid : Nat) (d : NodeData),
      co.getEndpoint st.sys addr = (sys1, nid) →
      lookupA ((seenNowNode sys1 nid).1).nodes nid = some d →
      ¬(key.model = true ∧ lookupA d.properties key = none) →
      propertyAddressUpdateStep co st addr key val =
        Except.ok ({ st with sys := setNodeProps ((seenNowNode sys1 nid).1) nid (updateA d.properties key val) }, [Notif.hostChange d.parentHost])) := by
  refine ⟨?_, ?_, ?_⟩
  · intro st ev nid d hev hd hst
    unfold propertyUpdateStep
    rw [hev]
    dsimp only
    rw [hd]
    simp only [hst, if_true]
  · intro st ev cid c hev hc hst
    unfold propertyUpdateStep
    rw [hev]
    dsimp only
    rw [hc]
    simp only [hst, if_true]
  · intro M co st addr key val sys1 nid d hge hd hkm
    have hpre : ∃ d0, lookupA sys1.nodes nid = some d0 := by
      cases hp : lookupA sys1.nodes nid with
      | none =>
        rw [seenNowNode_of_none sys1 nid hp] at hd
        rw [hp] at hd
        cases hd
      | some d0 => exact ⟨d0, rfl⟩
    obtain ⟨d0, hpre⟩ := hpre
    unfold propertyAddressUpdateStep
    rw [hge]
    simp only
    rw [hpre, hd]
    dsimp only
    rw [if_neg hkm]

/-- Witness for C6 at a concrete input: a `PropertyUpdate` on the concrete
Unexpected host is dropped. -/
theorem C6_property_update_drop_rules_witness :
    propertyUpdateStep unexSt ⟨EntityRef.node 1, ⟨"prop-a", false⟩, PropValue.other 5⟩ =
      (unexSt, []) :=
  C6_property_update_drop_rules.1 unexSt
    ⟨EntityRef.node 1, ⟨"prop-a", false⟩, PropValue.other 5⟩ 1 unexNode rfl rfl
    (Or.inr rfl)

/-! ## Claim C4 -/

/-- The condition under which the host-scan loop marks a child Fail
(inspector.py lines 210-223): not a client-side or non-TCP service, relevant,
and none of its addresses — directly or wildcard-resolved — in the observed
endpoint set. -/
def hostScanFails (scanHost : HostAddr) (eps : List Address) (cd : NodeData) : Bool :=
  (!(cd.isService && (cd.clientSide || !cd.is_tcp_service))) && cd.relevant &&
    !(cd.addresses.any (fun a =>
      decide (a ∈ eps) || (a.is_wildcard && decide (a.change_host scanHost ∈ eps))))

theorem hostScanChild_eq (sh : HostAddr) (eps : List Address) (sys : SysState) (cn : Nat)
    (cd : NodeData) (h : lookupA sys.nodes cn = some cd) :
    hostScanChild sh eps sys cn =
      if hostScanFails sh eps cd then
        setNodeProps sys cn
          (updateA cd.properties Properties.EXPECTED (PropValue.verdictValue Verdict.FAIL))
      else sys := by
  unfold hostScanChild hostScanFails
  rw [h]
  by_cases h1 : (cd.isService && (cd.clientSide || !cd.is_tcp_service)) = true
  · simp [h1]
  · by_cases h2 : cd.relevant = true
    · by_cases h3 : (cd.addresses.any (fun a =>
          decide (a ∈ eps) || (a.is_wildcard && decide (a.change_host sh ∈ eps)))) = true
      · simp [h1, h2, h3]
      · simp [h1, h2, h3]
    · simp [h1, h2]

theorem hostScanChild_other (sh : HostAddr) (eps : List Address) (sys : SysState)
    (cn n : Nat) (h : n ≠ cn) :
    lookupA (hostScanChild sh eps sys cn).nodes n = lookupA sys.nodes n := by
  unfold hostScanChild
  cases hc : lookupA sys.nodes cn with
  | none => rfl
  | some cd =>
    simp only
    split
    · rfl
    · split
      · rfl
      · split
        · rfl
        · exact lookupA_updateNodeAt_other sys cn _ n h

/-- The fold of the host-scan child loop touches exactly the children: each
child is marked Fail precisely when `hostScanFails` holds for it, and every
other node is untouched. -/
theorem hostScan_foldl (sh : HostAddr) (eps : List Address) (l : List Nat) (sys : SysState)
    (hnd : l.Nodup) :
    (∀ n, n ∉ l →
      lookupA (l.foldl (hostScanChild sh eps) sys).nodes n = lookupA sys.nodes n) ∧
    (∀ cn ∈ l, ∀ cd, lookupA sys.nodes cn = some cd →
      lookupA (l.foldl (hostScanChild sh eps) sys).nodes cn =
        some (if hostScanFails sh eps cd then
          { cd with properties :=
              updateA cd.properties Properties.EXPECTED (PropValue.verdictValue Verdict.FAIL) }
        else cd)) := by
  induction l generalizing sys with
  | nil => simp
  | cons h t ih =>
    have hh : h ∉ t := (List.nodup_cons.mp hnd).1
    have ht : t.Nodup := (List.nodup_cons.mp hnd).2
    constructor
    · intro n hn
      have hn1 : n ≠ h := fun he => hn (he ▸ List.mem_cons_self h t)
      have hn2 : n ∉ t := fun he => hn (List.mem_cons_of_mem h he)
      rw [List.foldl_cons, (ih (hostScanChild sh eps sys h) ht).1 n hn2,
        hostScanChild_other sh eps sys h n hn1]
    · intro cn hcn cd hcd
      rcases List.mem_cons.mp hcn with rfl | hcnt
      · rw [List.foldl_cons, (ih (hostScanChild sh eps sys cn) ht).1 cn hh,
          hostScanChild_eq sh eps sys cn cd hcd]
        by_cases hf : hostScanFails sh eps cd = true
        · rw [if_pos hf, if_pos hf]
          exact lookupA_updateNodeAt_self sys cn _ cd hcd
        · rw [if_neg hf, if_neg hf]
          exact hcd
      · have hne : cn ≠ h := fun he => hh (he ▸ hcnt)
        rw [List.foldl_cons]
        refine (ih (hostScanChild sh eps sys h) ht).2 cn hcnt cd ?_
        rw [hostScanChild_other sh eps sys h cn hne]
        exact hcd

/-- C4 amended: `host_scan` marks Fail (EXPECTED property verdict Fail)
exactly those relevant, non-client-side *TCP* services declared under the
matched host none of whose declared addresses (after wildcard resolution
against the scanned host address) appear in the observed endpoint set; every
other node of the system is untouched.  (The claim's §8 scenario holds for a
TCP:1234 service; a UDP service is skipped by the `is_tcp_service` filter.) -/
theorem C4_hostscan_marks_fail (M : Type) (co : Collab M) (st : InspState) (scan : HostScan)
    (sys1 : SysState) (hid : Nat) (hd : NodeData)
    (hge : co.getEndpoint st.sys (Address.host scan.host) = (sys1, hid))
    (hhd : lookupA sys1.nodes hid = some hd)
    (hhost : hd.isService = false)
    (hnd : hd.children.Nodup) :
    hostScanStep co st scan =
      Except.ok ({ st with sys := hd.children.foldl (hostScanChild scan.host scan.endpoints) sys1, knownHosts := addKnown st.knownHosts hid }, [Notif.hostChange hid], hid) ∧
    (∀ cn ∈ hd.children, ∀ cd, lookupA sys1.nodes cn = some cd →
      lookupA (hd.children.foldl (hostScanChild scan.host scan.endpoints) sys1).nodes cn =
        some (if hostScanFails scan.host scan.endpoints cd then
          { cd with properties :=
              updateA cd.properties Properties.EXPECTED (PropValue.verdictValue Verdict.FAIL) }
        else cd)) ∧
    (∀ n, n ∉ hd.children →
      lookupA (hd.children.foldl (hostScanChild scan.host scan.endpoints) sys1).nodes n =
        lookupA sys1.nodes n) := by
  refine ⟨?_, (hostScan_foldl _ _ _ _ hnd).2, (hostScan_foldl _ _ _ _ hnd).1⟩
  unfold hostScanStep
  rw [hge]
  dsimp only
  rw [hhd]
  dsimp only
  rw [if_neg (by simp [hhost])]

/-- A declared Backend host at 192.168.0.2 with one service child. -/
def backendHost : NodeData :=
  { isService := false, clientSide := false, protocol := Protocol.udp
    status := Status.EXPECTED, properties := [], parentHost := 1, children := [2]
    isMulticast := false, relevant := true, externalActivity := ExternalActivity.BANNED
    ignoreNameRequests := [], addresses := [Address.host (HostAddr.ipa "192.168.0.2")]
    addressPairs := [] }

/-- A declared, previously-Pass server service on port 1234 with the given
protocol. -/
def portSvc (p : Protocol) : NodeData :=
  { isService := true, clientSide := false, protocol := p
    status := Status.EXPECTED
    properties := [(Properties.EXPECTED, PropValue.verdictValue Verdict.PASS)]
    parentHost := 1, children := [], isMulticast := false, relevant := true
    externalActivity := ExternalActivity.BANNED, ignoreNameRequests := []
    addresses := [Address.endpoint (HostAddr.ipa "192.168.0.2") p 1234]
    addressPairs := [] }

/-- Inspector state with the Backend host and its port-1234 service. -/
def scanSt (p : Protocol) : InspState :=
  ⟨⟨[(1, backendHost), (2, portSvc p)], []⟩, [], [], []⟩

/-- C4 counterexample: a HostScan with an empty endpoint set on the host
with a declared, relevant, non-client-side, previously-Pass UDP:1234 server
service leaves that service's verdict at Pass — the code only fails TCP
services, contradicting the claimed §8 transition of the UDP service to
Fail. -/
theorem C4_hostscan_udp_counterexample :
    ((lookupA (scanSt Protocol.udp).sys.nodes 2).map
      (fun d => (d.isService, d.clientSide, d.protocol, d.relevant,
        expectedVerdict d.properties))) =
        some (true, false, Protocol.udp, true, some Verdict.PASS) ∧
    (hostScanStep plainCollab (scanSt Protocol.udp)
        ⟨HostAddr.ipa "192.168.0.2", []⟩).map
      (fun r => (nodeProps r.1.sys 2).map expectedVerdict) =
        Except.ok (some (some Verdict.PASS)) := by
  exact ⟨rfl, rfl⟩

/-- Witness for C4 at a concrete input: the same scenario with a TCP:1234
service. -/
theorem C4_hostscan_marks_fail_witness :
    hostScanStep plainCollab (scanSt Protocol.tcp) ⟨HostAddr.ipa "192.168.0.2", []⟩ =
      Except.ok ({ scanSt Protocol.tcp with sys := backendHost.children.foldl (hostScanChild (HostAddr.ipa "192.168.0.2") []) (scanSt Protocol.tcp).sys, knownHosts := addKnown (scanSt Protocol.tcp).knownHosts 1 }, [Notif.hostChange 1], 1) :=
  (C4_hostscan_marks_fail Unit plainCollab (scanSt Protocol.tcp)
    ⟨HostAddr.ipa "192.168.0.2", []⟩ (scanSt Protocol.tcp).sys 1 backendHost
    rfl rfl rfl (by decide)).1

/-- Witness for C7 at a concrete input: the demo flow resolved to the
Expected connection 10. -/
theorem C7_flow_properties_merged_iff_expected_witness :
    ∃ (pre : SysState) (cd : ConnData),
      lookupA pre.conns 10 = some cd ∧
      connStatus flowDemoRes.sys 10 = some cd.status ∧
      flowDemoRes.sys.nodes = pre.nodes ∧
      (cd.status = Status.EXPECTED →
        flowDemoRes.sys = mergeConnProps pre 10 demoFlow.properties ∧
        connProps flowDemoRes.sys 10 = some (mergeProps cd.properties demoFlow.properties)) ∧
      (cd.status ≠ Status.EXPECTED →
        flowDemoRes.sys = pre ∧ connProps flowDemoRes.sys 10 = some cd.properties) :=
  C7_flow_properties_merged_iff_expected Unit flowCollab () flowDemoSt demoFlow ()
    flowDemoRes 10 flowDemoNotifs (by rfl)

/-! ## Claim C3 -/

/-- Monotonicity relation between two system states: every entity (node or
connection) that exists with a non-Placeholder status keeps existing with a
non-Placeholder status. -/
def StatusPreserving (a b : SysState) : Prop :=
  (∀ nid d, lookupA a.nodes nid = some d → d.status ≠ Status.PLACEHOLDER →
    ∃ d', lookupA b.nodes nid = some d' ∧ d'.status ≠ Status.PLACEHOLDER) ∧
  (∀ cid c, lookupA a.conns cid = some c → c.status ≠ Status.PLACEHOLDER →
    ∃ c', lookupA b.conns cid = some c' ∧ c'.status ≠ Status.PLACEHOLDER)

theorem statusPreserving_refl (a : SysState) : StatusPreserving a a :=
  ⟨fun _ d h hn => ⟨d, h, hn⟩, fun _ c h hn => ⟨c, h, hn⟩⟩

theorem statusPreserving_trans {a b c : SysState} (hab : StatusPreserving a b)
    (hbc : StatusPreserving b c) : StatusPreserving a c := by
  constructor
  · intro nid d h hn
    obtain ⟨d', h', hn'⟩ := hab.1 nid d h hn
    exact hbc.1 nid d' h' hn'
  · intro cid e h hn
    obtain ⟨e', h', hn'⟩ := hab.2 cid e h hn
    exact hbc.2 cid e' h' hn'

theorem connStatus_of_conns_eq (a b : SysState) (h : a.conns = b.conns) (i : Nat) :
    connStatus a i = connStatus b i := by
  rw [connStatus, connStatus, h]

/-- Status-for-status equal states trivially preserve statuses. -/
theorem statusPreserving_of_status_eq (a b : SysState)
    (hn : ∀ n, nodeStatus b n = nodeStatus a n)
    (hc : ∀ i, connStatus b i = connStatus a i) : StatusPreserving a b := by
  constructor
  · intro nid d hd hnp
    have h1 := hn nid
    rw [nodeStatus, nodeStatus, hd] at h1
    cases hb : lookupA b.nodes nid with
    | none =>
      rw [hb] at h1
      simp at h1
    | some d' =>
      rw [hb] at h1
      simp only [Option.map_some', Option.some.injEq] at h1
      exact ⟨d', rfl, by rw [h1]; exact hnp⟩
  · intro cid c hc2 hnp
    have h1 := hc cid
    rw [connStatus, connStatus, hc2] at h1
    cases hb : lookupA b.conns cid with
    | none =>
      rw [hb] at h1
      simp at h1
    | some c' =>
      rw [hb] at h1
      simp only [Option.map_some', Option.some.injEq] at h1
      exact ⟨c', rfl, by rw [h1]; exact hnp⟩

theorem sp_seenNowNode (sys : SysState) (nid : Nat) :
    StatusPreserving sys ((seenNowNode sys nid).1) :=
  statusPreserving_of_status_eq _ _ (fun n => nodeStatus_seenNowNode sys nid n)
    (fun i => connStatus_of_conns_eq _ _ (seenNowNode_conns sys nid) i)

theorem sp_setNodeProps (sys : SysState) (nid : Nat) (p : PropMap) :
    StatusPreserving sys (setNodeProps sys nid p) :=
  statusPreserving_of_status_eq _ _ (fun n => nodeStatus_setNodeProps sys nid p n)
    (fun i => connStatus_of_conns_eq _ _ (setNodeProps_conns sys nid p) i)

theorem sp_setConnProps (sys : SysState) (cid : Nat) (p : PropMap) :
    StatusPreserving sys (setConnProps sys cid p) := by
  refine statusPreserving_of_status_eq _ _ ?_ ?_
  · intro n
    exact nodeStatus_of_nodes_eq _ _ (updateConnAt_nodes sys cid _) n
  · intro i
    exact connStatus_of_connShape _ _ _
      (connShape_updateConnAt sys cid (fun c => { c with properties := p })
        (fun _ => ⟨rfl, rfl, rfl⟩) i)

/-- `updateNodeAt` with a mutation whose result is never Placeholder
preserves statuses. -/
theorem sp_updateNodeAt_notPH (sys : SysState) (nid : Nat) (f : NodeData → NodeData)
    (hf : ∀ d, (f d).status ≠ Status.PLACEHOLDER) :
    StatusPreserving sys (updateNodeAt sys nid f) := by
  constructor
  · intro m d hd hnp
    by_cases hm : m = nid
    · subst hm
      exact ⟨f d, lookupA_updateNodeAt_self sys m f d hd, hf d⟩
    · exact ⟨d, by rw [lookupA_updateNodeAt_other sys nid f m hm]; exact hd, hnp⟩
  · intro cid c hc hnp
    refine ⟨c, ?_, hnp⟩
    rw [updateNodeAt_conns]
    exact hc

theorem sp_fixPlaceholder (sys : SysState) (nid : Nat) (cst : Status)
    (hcst : cst ≠ Status.PLACEHOLDER) :
    StatusPreserving sys (fixPlaceholder sys nid cst) := by
  refine sp_updateNodeAt_notPH sys nid _ (fun d => ?_)
  by_cases h : d.status = Status.PLACEHOLDER <;> simp [h, hcst]

theorem sp_learnPair (sys : SysState) (nid : Nat) (hw ip : HostAddr) :
    StatusPreserving sys ((learnPair sys nid hw ip).1) :=
  statusPreserving_of_status_eq _ _ (fun n => nodeStatus_learnPair sys nid hw ip n)
    (fun i => connStatus_of_conns_eq _ _ (learnPair_conns sys nid hw ip) i)

theorem sp_seenNowConn (sys : SysState) (cid : Nat) :
    StatusPreserving sys (seenNowConn sys cid) := by
  refine statusPreserving_of_status_eq _ _ ?_ ?_
  · intro n
    exact nodeStatus_of_nodes_eq _ _ (seenNowConn_nodes sys cid) n
  · intro i
    exact connStatus_of_connShape _ _ _ (connShape_seenNowConn sys cid i)

theorem sp_mergeConnProps (sys : SysState) (cid : Nat) (fp : PropMap) :
    StatusPreserving sys (mergeConnProps sys cid fp) := by
  refine statusPreserving_of_status_eq _ _ ?_ ?_
  · intro n
    exact nodeStatus_of_nodes_eq _ _ (mergeConnProps_nodes sys cid fp) n
  · intro i
    exact connStatus_of_connShape _ _ _ (connShape_mergeConnProps sys cid fp i)

theorem sp_hostScanChild (sh : HostAddr) (eps : List Address) (sys : SysState) (cn : Nat) :
    StatusPreserving sys (hostScanChild sh eps sys cn) := by
  unfold hostScanChild
  cases hc : lookupA sys.nodes cn with
  | none => exact statusPreserving_refl sys
  | some cd =>
    simp only
    split
    · exact statusPreserving_refl sys
    · split
      · exact statusPreserving_refl sys
      · split
        · exact statusPreserving_refl sys
        · exact sp_setNodeProps sys cn _

theorem sp_hostScan_foldl (sh : HostAddr) (eps : List Address) (l : List Nat)
    (sys : SysState) : StatusPreserving sys (l.foldl (hostScanChild sh eps) sys) := by
  induction l generalizing sys with
  | nil => exact statusPreserving_refl sys
  | cons h t ih =>
    rw [List.foldl_cons]
    exact statusPreserving_trans (sp_hostScanChild sh eps sys h)
      (ih (hostScanChild sh eps sys h))

/-- Extraction: a non-placeholder node keeps a non-placeholder status
through one `fixPlaceholder`. -/
theorem nodeStatus_fix_keeps (sys : SysState) (nid : Nat) (cst : Status) (m : Nat)
    (s : Status) (h : nodeStatus sys m = some s) (hs : s ≠ Status.PLACEHOLDER) :
    ∃ s', nodeStatus (fixPlaceholder sys nid cst) m = some s' ∧ s' ≠ Status.PLACEHOLDER := by
  rw [nodeStatus] at h
  cases hl : lookupA sys.nodes m with
  | none =>
    rw [hl] at h
    simp at h
  | some d =>
    rw [hl] at h
    simp only [Option.map_some', Option.some.injEq] at h
    by_cases hm : m = nid
    · subst hm
      refine ⟨s, ?_, hs⟩
      unfold fixPlaceholder
      rw [nodeStatus, lookupA_updateNodeAt_self sys m _ d hl]
      have hd : d.status ≠ Status.PLACEHOLDER := by rw [h]; exact hs
      simp [h, hs, hd]
    · refine ⟨s, ?_, hs⟩
      unfold fixPlaceholder
      rw [nodeStatus, lookupA_updateNodeAt_other sys nid _ m hm, hl]
      simp [h]

/-- A successful `connectionCore` call preserves statuses relative to the
matcher-produced system. -/
theorem connectionCore_statusPreserving (st : InspState) (f : Flow) (sysm : SysState)
    (cid : Nat) (reply : Bool) (st1 : InspState) (n1 : List Notif)
    (h : connectionCore st f sysm cid reply = Except.ok (st1, n1)) :
    StatusPreserving sysm st1.sys := by
  obtain ⟨conn, hconn, hph, sys4, hsys, hns, hpar, hshape, _, _, _⟩ :=
    connectionCore_ok_inv st f sysm cid reply st1 n1 h
  have hnodes1 : ∀ n, nodeStatus st1.sys n = nodeStatus sys4 n := by
    intro n
    rw [hsys]
    by_cases hstat : conn.status = Status.EXPECTED
    · rw [if_pos hstat]
      exact nodeStatus_of_nodes_eq _ _ (mergeConnProps_nodes sys4 cid f.properties) n
    · rw [if_neg hstat]
  have hshape1 : ∀ i, connShape st1.sys i = connShape sysm i := by
    intro i
    rw [hsys]
    by_cases hstat : conn.status = Status.EXPECTED
    · rw [if_pos hstat, connShape_mergeConnProps]
      exact hshape i
    · rw [if_neg hstat]
      exact hshape i
  constructor
  · intro nid d hd hnp
    have h1 : nodeStatus sysm nid = some d.status := by rw [nodeStatus, hd]; rfl
    obtain ⟨s1, hf1, hs1⟩ := nodeStatus_fix_keeps sysm conn.source conn.status nid
      d.status h1 hnp
    obtain ⟨s2, hf2, hs2⟩ := nodeStatus_fix_keeps _ conn.target conn.status nid s1 hf1 hs1
    have hfin : nodeStatus st1.sys nid = some s2 := by
      rw [hnodes1 nid, hns nid]
      exact hf2
    rw [nodeStatus] at hfin
    cases hl : lookupA st1.sys.nodes nid with
    | none =>
      rw [hl] at hfin
      simp at hfin
    | some d' =>
      rw [hl] at hfin
      simp only [Option.map_some', Option.some.injEq] at hfin
      exact ⟨d', rfl, by rw [hfin]; exact hs2⟩
  · intro i c hc hnp
    have hsh := hshape1 i
    rw [connShape, connShape, hc] at hsh
    cases hl : lookupA st1.sys.conns i with
    | none =>
      rw [hl] at hsh
      simp at hsh
    | some c' =>
      rw [hl] at hsh
      simp only [Option.map_some', Option.some.injEq] at hsh
      refine ⟨c', rfl, ?_⟩
      have : c'.status = c.status := congrArg Prod.fst hsh
      rw [this]
      exact hnp

theorem nameStep_statusPreserving (M : Type) (co : Collab M)
    (hl : ∀ sys n a, StatusPreserving sys (co.learnNamedAddress sys n a).1)
    (st : InspState) (ev : NameEvent) :
    StatusPreserving st.sys (((nameStep co st ev).1).sys) := by
  unfold nameStep
  dsimp only
  split
  · exact hl st.sys ev.name (nameEventAddress ev)
  · refine statusPreserving_trans (hl st.sys ev.name (nameEventAddress ev)) ?_
    split
    · split
      · split
        · exact sp_seenNowNode _ _
        · exact sp_updateNodeAt_notPH _ _ _ (fun d => by simp)
      · exact statusPreserving_refl _
    · exact statusPreserving_refl _

theorem propertyUpdateStep_statusPreserving (st : InspState) (ev : PropertyEvent) :
    StatusPreserving st.sys (((propertyUpdateStep st ev).1).sys) := by
  unfold propertyUpdateStep
  cases ev.target with
  | node nid =>
    dsimp only
    cases hc : lookupA st.sys.nodes nid with
    | none => exact statusPreserving_refl _
    | some d =>
      dsimp only
      split
      · exact statusPreserving_refl _
      · split
        · exact statusPreserving_refl _
        · exact sp_setNodeProps _ _ _
  | conn cid =>
    dsimp only
    cases hc : lookupA st.sys.conns cid with
    | none => exact statusPreserving_refl _
    | some c =>
      dsimp only
      split
      · exact statusPreserving_refl _
      · split
        · exact statusPreserving_refl _
        · exact sp_setConnProps _ _ _

theorem propertyAddressUpdateStep_statusPreserving (M : Type) (co : Collab M)
    (hg : ∀ sys a, StatusPreserving sys (co.getEndpoint sys a).1)
    (st : InspState) (addr : Address) (key : PropKey) (val : PropValue)
    (st' : InspState) (ns : List Notif)
    (h : propertyAddressUpdateStep co st addr key val = Except.ok (st', ns)) :
    StatusPreserving st.sys st'.sys := by
  unfold propertyAddressUpdateStep at h
  dsimp only at h
  refine statusPreserving_trans (hg st.sys addr) ?_
  cases h1 : lookupA (co.getEndpoint st.sys addr).1.nodes (co.getEndpoint st.sys addr).2 with
  | none =>
    rw [h1] at h
    cases h
  | some d0 =>
    rw [h1] at h
    dsimp only at h
    refine statusPreserving_trans
      (sp_seenNowNode (co.getEndpoint st.sys addr).1 (co.getEndpoint st.sys addr).2) ?_
    cases h2 : lookupA ((seenNowNode (co.getEndpoint st.sys addr).1
        (co.getEndpoint st.sys addr).2).1).nodes (co.getEndpoint st.sys addr).2 with
    | none =>
      rw [h2] at h
      cases h
    | some d =>
      rw [h2] at h
      dsimp only at h
      split at h
      · rw [Except.ok.injEq, Prod.mk.injEq] at h
        rw [← h.1]
        exact statusPreserving_refl _
      · rw [Except.ok.injEq, Prod.mk.injEq] at h
        rw [← h.1]
        exact sp_setNodeProps _ _ _

theorem serviceScanStep_statusPreserving (M : Type) (co : Collab M)
    (hg : ∀ sys a, StatusPreserving sys (co.getEndpoint sys a).1)
    (st : InspState) (endpoint : Address) (st' : InspState) (ns : List Notif) (rid : Nat)
    (h : serviceScanStep co st endpoint = Except.ok (st', ns, rid)) :
    StatusPreserving st.sys st'.sys := by
  unfold serviceScanStep at h
  dsimp only at h
  refine statusPreserving_trans (hg st.sys endpoint) ?_
  cases h1 : lookupA (co.getEndpoint st.sys endpoint).1.nodes
      (co.getEndpoint st.sys endpoint).2 with
  | none =>
    rw [h1] at h
    cases h
  | some d0 =>
    rw [h1] at h
    dsimp only at h
    split at h
    · cases h
    · rw [Except.ok.injEq, Prod.mk.injEq] at h
      rw [← h.1]
      exact sp_seenNowNode _ _

theorem hostScanStep_statusPreserving (M : Type) (co : Collab M)
    (hg : ∀ sys a, StatusPreserving sys (co.getEndpoint sys a).1)
    (st : InspState) (scan : HostScan) (st' : InspState) (ns : List Notif) (rid : Nat)
    (h : hostScanStep co st scan = Except.ok (st', ns, rid)) :
    StatusPreserving st.sys st'.sys := by
  unfold hostScanStep at h
  dsimp only at h
  refine statusPreserving_trans (hg st.sys (Address.host scan.host)) ?_
  cases h1 : lookupA (co.getEndpoint st.sys (Address.host scan.host)).1.nodes
      (co.getEndpoint st.sys (Address.host scan.host)).2 with
  | none =>
    rw [h1] at h
    cases h
  | some hd =>
    rw [h1] at h
    dsimp only at h
    split at h
    · cases h
    · rw [Except.ok.injEq, Prod.mk.injEq] at h
      rw [← h.1]
      exact sp_hostScan_foldl _ _ _ _

theorem inspStep_statusPreserving (M : Type) (co : Collab M)
    (hm : ∀ m sys f, StatusPreserving sys (co.matcher m sys f).2.1)
    (hl : ∀ sys n a, StatusPreserving sys (co.learnNamedAddress sys n a).1)
    (hg : ∀ sys a, StatusPreserving sys (co.getEndpoint sys a).1)
    (m : M) (st : InspState) (e : InspEvent) (m2 : M) (st2 : InspState)
    (h : inspStep co m st e = Except.ok (m2, st2)) :
    StatusPreserving st.sys st2.sys := by
  cases e with
  | flow f =>
    simp only [inspStep] at h
    cases hcs : connectionStep co m st f with
    | error e =>
      rw [hcs] at h
      cases h
    | ok r =>
      rw [hcs] at h
      obtain ⟨rm, rst, rcid, rns⟩ := r
      simp only [Except.map, Except.ok.injEq, Prod.mk.injEq] at h
      obtain ⟨-, hst2⟩ := h
      rw [← hst2]
      obtain ⟨-, hcid, hcc⟩ := connectionStep_ok_inv M co m st f rm rst rcid rns hcs
      exact statusPreserving_trans (hm m st.sys f)
        (connectionCore_statusPreserving st f _ _ _ rst rns hcc)
  | nameEv ev =>
    simp only [inspStep, Except.ok.injEq, Prod.mk.injEq] at h
    obtain ⟨-, hst2⟩ := h
    rw [← hst2]
    exact nameStep_statusPreserving M co hl st ev
  | propUpd ev =>
    simp only [inspStep, Except.ok.injEq, Prod.mk.injEq] at h
    obtain ⟨-, hst2⟩ := h
    rw [← hst2]
    exact propertyUpdateStep_statusPreserving st ev
  | propAddrUpd a k v =>
    simp only [inspStep] at h
    cases hps : propertyAddressUpdateStep co st a k v with
    | error e =>
      rw [hps] at h
      cases h
    | ok r =>
      rw [hps] at h
      obtain ⟨rst, rns⟩ := r
      simp only [Except.map, Except.ok.injEq, Prod.mk.injEq] at h
      obtain ⟨-, hst2⟩ := h
      rw [← hst2]
      exact propertyAddressUpdateStep_statusPreserving M co hg st a k v rst rns hps
  | svcScan ep =>
    simp only [inspStep] at h
    cases hps : serviceScanStep co st ep with
    | error e =>
      rw [hps] at h
      cases h
    | ok r =>
      rw [hps] at h
      obtain ⟨rst, rns, rid⟩ := r
      simp only [Except.map, Except.ok.injEq, Prod.mk.injEq] at h
      obtain ⟨-, hst2⟩ := h
      rw [← hst2]
      exact serviceScanStep_statusPreserving M co hg st ep rst rns rid hps
  | hostScanEv sc =>
    simp only [inspStep] at h
    cases hps : hostScanStep co st sc with
    | error e =>
      rw [hps] at h
      cases h
    | ok r =>
      rw [hps] at h
      obtain ⟨rst, rns, rid⟩ := r
      simp only [Except.map, Except.ok.injEq, Prod.mk.injEq] at h
      obtain ⟨-, hst2⟩ := h
      rw [← hst2]
      exact hostScanStep_statusPreserving M co hg st sc rst rns rid hps

/-- C3: statuses are monotonic across any sequence of inspector event
calls — every entity holding a non-Placeholder status before the sequence
still exists with a non-Placeholder status afterwards, i.e. no event ever
moves an entity back to Placeholder.  The matcher, name learning and
endpoint lookup of the missing model/matcher modules enter through their
spec contracts (§3 invariant d, §4.1): they never move an existing
non-placeholder entity back to Placeholder. -/
theorem C3_status_monotonic (M : Type) (co : Collab M)
    (hm : ∀ m sys f, StatusPreserving sys (co.matcher m sys f).2.1)
    (hl : ∀ sys n a, StatusPreserving sys (co.learnNamedAddress sys n a).1)
    (hg : ∀ sys a, StatusPreserving sys (co.getEndpoint sys a).1)
    (events : List InspEvent) (m : M) (st : InspState) (m' : M) (st' : InspState)
    (hrun : runEvents co m st events = Except.ok (m', st')) :
    StatusPreserving st.sys st'.sys := by
  induction events generalizing m st with
  | nil =>
    rw [runEvents, Except.ok.injEq, Prod.mk.injEq] at hrun
    rw [← hrun.2]
    exact statusPreserving_refl _
  | cons e t ih =>
    rw [runEvents] at hrun
    cases hstep : inspStep co m st e with
    | error s =>
      rw [hstep] at hrun
      cases hrun
    | ok r =>
      rw [hstep] at hrun
      exact statusPreserving_trans
        (inspStep_statusPreserving M co hm hl hg m st e r.1 r.2 (by rw [hstep]))
        (ih r.1 r.2 hrun)

/-- Witness for C3 at a concrete input: one dropped property update on the
demo state with the plain collaborator. -/
theorem C3_status_monotonic_witness :
    StatusPreserving unexSt.sys unexSt.sys :=
  C3_status_monotonic Unit plainCollab
    (fun _ sys _ => statusPreserving_refl sys)
    (fun sys _ _ => statusPreserving_refl sys)
    (fun sys _ => statusPreserving_refl sys)
    [InspEvent.propUpd ⟨EntityRef.node 1, ⟨"prop-a", false⟩, PropValue.other 5⟩]
    () unexSt () unexSt rfl

/-- Witness for C2 at a concrete input: replaying the demo flow on the
post-flow state notifies nothing and changes no status or verdict. -/
theorem C2_flow_replay_idempotent_witness :
    ∃ st2 : InspState,
      connectionStep flowCollab () flowDemoRes demoFlow = Except.ok ((), st2, 10, []) ∧
      st2.sys.nodes = flowDemoRes.sys.nodes ∧
      st2.sessions = flowDemoRes.sessions ∧
      st2.knownHosts = flowDemoRes.knownHosts ∧
      connStatus st2.sys 10 = connStatus flowDemoRes.sys 10 ∧
      connVerdict st2.sys 10 = connVerdict flowDemoRes.sys 10 :=
  C2_flow_replay_idempotent Unit flowCollab () () flowDemoSt flowDemoRes demoFlow 10
    flowDemoNotifs false (by rfl) rfl

/-! ### C8: SQLDatabase.get_id determinism and content addressing -/

/-- A cached object identity short-circuits `get_id` with no state change. -/
theorem sqlGetId_cached (st : SQLState) (e : DBEntity) (i : Nat)
    (h : lookupA st.id_cache e.oid = some i) : sqlGetId st e = (st, i) := by
  unfold sqlGetId
  rw [h]

/-- `_cache_entity` records the object identity of its argument. -/
theorem cacheEntity_caches (st : SQLState) (e : DBEntity) :
    lookupA (cacheEntity st e).1.id_cache e.oid = some (cacheEntity st e).2 := by
  simp [cacheEntity, lookupA_updateA]

/-- The keyed tail of `get_id` records the object identity of its argument. -/
theorem finishKeyed_caches (st : SQLState) (e : DBEntity) (key : DBKey) (sn : String)
    (ln : Option String) (src tgt : Option Nat) :
    lookupA (finishKeyed st e key sn ln src tgt).1.id_cache e.oid
      = some (finishKeyed st e key sn ln src tgt).2 := by
  unfold finishKeyed
  cases lookupA st.id_by_key key with
  | some i => simp [lookupA_updateA]
  | none => simp [cacheEntity, lookupA_updateA]

/-- Every `get_id` call leaves its argument's object identity cached with the
returned ID. -/
theorem sqlGetId_caches (st : SQLState) (e : DBEntity) :
    lookupA (sqlGetId st e).1.id_cache e.oid = some ((sqlGetId st e).2) := by
  unfold sqlGetId
  cases h : lookupA st.id_cache e.oid with
  | some i => simpa using h
  | none =>
    cases e with
    | host o ln => exact finishKeyed_caches st _ _ _ _ _ _
    | service o sn ln parent => exact finishKeyed_caches _ _ _ _ _ _ _
    | component o cn owner => exact finishKeyed_caches _ _ _ _ _ _ _
    | connection o ln s t => exact finishKeyed_caches _ _ _ _ _ _ _
    | otherE o => exact cacheEntity_caches st _

/-- Calling `get_id` a second time on the state the first call produced
returns the same ID and changes nothing. -/
theorem sqlGetId_stable (st : SQLState) (e : DBEntity) :
    sqlGetId (sqlGetId st e).1 e = sqlGetId st e := by
  rw [sqlGetId_cached _ _ _ (sqlGetId_caches st e)]

/-- The keyed tail of `get_id` on a key hit: the stored ID is reused and
only the in-memory caches change. -/
theorem finishKeyed_hit (st : SQLState) (e : DBEntity) (key : DBKey) (sn : String)
    (ln : Option String) (src tgt : Option Nat) (i : Nat)
    (h : lookupA st.id_by_key key = some i) :
    finishKeyed st e key sn ln src tgt
      = ({ st with id_cache := updateA st.id_cache e.oid i, entity_cache := updateA st.entity_cache i (some e) }, i) := by
  unfold finishKeyed
  rw [h]

/-- The keyed tail of `get_id` on a key miss: a fresh ID is allocated and a
new row persisted. -/
theorem finishKeyed_miss (st : SQLState) (e : DBEntity) (key : DBKey) (sn : String)
    (ln : Option String) (src tgt : Option Nat)
    (h : lookupA st.id_by_key key = none) :
    finishKeyed st e key sn ln src tgt = (registerFresh st e key sn ln src tgt, allocId st) := by
  unfold finishKeyed
  rw [h]
  rfl

/-- Dispatch of `get_id` on an uncached host. -/
theorem sqlGetId_host_eq (st : SQLState) (o : Nat) (ln : String)
    (hc : lookupA st.id_cache o = none) :
    sqlGetId st (.host o ln) = finishKeyed st (.host o ln) (.nameK ln) ln none none none := by
  conv_lhs => rw [sqlGetId.eq_def]
  dsimp only
  rw [show lookupA st.id_cache (DBEntity.oid (.host o ln)) = none from hc]

/-- Dispatch of `get_id` on an uncached service. -/
theorem sqlGetId_service_eq (st : SQLState) (o : Nat) (sn ln : String) (p : DBEntity)
    (hc : lookupA st.id_cache o = none) :
    sqlGetId st (.service o sn ln p)
      = finishKeyed (sqlGetId st p).1 (.service o sn ln p) (.nameOwner sn (sqlGetId st p).2) sn (some ln) (some (sqlGetId st p).2) none := by
  conv_lhs => rw [sqlGetId.eq_def]
  dsimp only
  rw [show lookupA st.id_cache (DBEntity.oid (.service o sn ln p)) = none from hc]

/-- Dispatch of `get_id` on an uncached component. -/
theorem sqlGetId_component_eq (st : SQLState) (o : Nat) (cn : String) (w : DBEntity)
    (hc : lookupA st.id_cache o = none) :
    sqlGetId st (.component o cn w)
      = finishKeyed (sqlGetId st w).1 (.component o cn w) (.nameOwner cn (sqlGetId st w).2) cn none (some (sqlGetId st w).2) none := by
  conv_lhs => rw [sqlGetId.eq_def]
  dsimp only
  rw [show lookupA st.id_cache (DBEntity.oid (.component o cn w)) = none from hc]

/-- Dispatch of `get_id` on an uncached connection. -/
theorem sqlGetId_connection_eq (st : SQLState) (o : Nat) (ln : String) (s t : DBEntity)
    (hc : lookupA st.id_cache o = none) :
    sqlGetId st (.connection o ln s t)
      = finishKeyed (sqlGetId (sqlGetId st s).1 t).1 (.connection o ln s t) (.pairK (sqlGetId st s).2 (sqlGetId (sqlGetId st s).1 t).2) ln none (some (sqlGetId st s).2) (some (sqlGetId (sqlGetId st s).1 t).2) := by
  conv_lhs => rw [sqlGetId.eq_def]
  dsimp only
  rw [show lookupA st.id_cache (DBEntity.oid (.connection o ln s t)) = none from hc]

/-- Registering an uncached host whose long name is already keyed returns
the stored ID; rows and key cache are untouched. -/
theorem sqlGetId_host_hit (st : SQLState) (o : Nat) (ln : String) (i : Nat)
    (hc : lookupA st.id_cache o = none)
    (hk : lookupA st.id_by_key (.nameK ln) = some i) :
    sqlGetId st (.host o ln)
      = ({ st with id_cache := updateA st.id_cache o i, entity_cache := updateA st.entity_cache i (some (.host o ln)) }, i) := by
  rw [sqlGetId_host_eq st o ln hc]
  exact finishKeyed_hit st _ _ _ _ _ _ i hk

/-- Registering an uncached service with cached parent and keyed
`(name, parent ID)` returns the stored ID without touching rows or keys. -/
theorem sqlGetId_service_hit (st : SQLState) (o : Nat) (sn ln : String) (p : DBEntity)
    (ip i : Nat)
    (hc : lookupA st.id_cache o = none)
    (hp : lookupA st.id_cache p.oid = some ip)
    (hk : lookupA st.id_by_key (.nameOwner sn ip) = some i) :
    sqlGetId st (.service o sn ln p)
      = ({ st with id_cache := updateA st.id_cache o i, entity_cache := updateA st.entity_cache i (some (.service o sn ln p)) }, i) := by
  rw [sqlGetId_service_eq st o sn ln p hc, sqlGetId_cached st p ip hp]
  exact finishKeyed_hit st _ _ _ _ _ _ i hk

/-- Registering an uncached component with cached owner and keyed
`(name, owner ID)` returns the stored ID without touching rows or keys. -/
theorem sqlGetId_component_hit (st : SQLState) (o : Nat) (cn : String) (w : DBEntity)
    (ip i : Nat)
    (hc : lookupA st.id_cache o = none)
    (hp : lookupA st.id_cache w.oid = some ip)
    (hk : lookupA st.id_by_key (.nameOwner cn ip) = some i) :
    sqlGetId st (.component o cn w)
      = ({ st with id_cache := updateA st.id_cache o i, entity_cache := updateA st.entity_cache i (some (.component o cn w)) }, i) := by
  rw [sqlGetId_component_eq st o cn w hc, sqlGetId_cached st w ip hp]
  exact finishKeyed_hit st _ _ _ _ _ _ i hk

/-- Registering an uncached connection with cached endpoints and keyed
`(source ID, target ID)` returns the stored ID without touching rows or
keys. -/
theorem sqlGetId_connection_hit (st : SQLState) (o : Nat) (ln : String) (s t : DBEntity)
    (si ti i : Nat)
    (hc : lookupA st.id_cache o = none)
    (hs : lookupA st.id_cache s.oid = some si)
    (ht : lookupA st.id_cache t.oid = some ti)
    (hk : lookupA st.id_by_key (.pairK si ti) = some i) :
    sqlGetId st (.connection o ln s t)
      = ({ st with id_cache := updateA st.id_cache o i, entity_cache := updateA st.entity_cache i (some (.connection o ln s t)) }, i) := by
  rw [sqlGetId_connection_eq st o ln s t hc, sqlGetId_cached st s si hs]
  dsimp only
  rw [sqlGetId_cached st t ti ht]
  dsimp only
  exact finishKeyed_hit st _ _ _ _ _ _ i hk

/-- A completely fresh host registration allocates a new ID and appends one
node row. -/
theorem sqlGetId_host_miss (st : SQLState) (o : Nat) (ln : String)
    (hc : lookupA st.id_cache o = none)
    (hk : lookupA st.id_by_key (.nameK ln) = none) :
    sqlGetId st (.host o ln) = (freshHost st o ln, allocId st) := by
  rw [sqlGetId_host_eq st o ln hc]
  exact finishKeyed_miss st _ _ _ _ _ _ hk

/-- A completely fresh registration of a service under a fresh host
allocates two IDs and appends the host row and then the service row. -/
theorem sqlGetId_service_fresh (st : SQLState) (o po : Nat) (sn ln pn : String)
    (hc : lookupA st.id_cache o = none)
    (hcp : lookupA st.id_cache po = none)
    (hkp : lookupA st.id_by_key (.nameK pn) = none)
    (hks : ∀ j, lookupA st.id_by_key (.nameOwner sn j) = none) :
    sqlGetId st (.service o sn ln (.host po pn))
      = (registerFresh (freshHost st po pn) (.service o sn ln (.host po pn)) (.nameOwner sn (allocId st)) sn (some ln) (some (allocId st)) none,
         allocId (freshHost st po pn)) := by
  rw [sqlGetId_service_eq st o sn ln _ hc, sqlGetId_host_miss st po pn hcp hkp]
  dsimp only
  refine finishKeyed_miss _ _ _ _ _ _ _ ?_
  show lookupA (updateA st.id_by_key (.nameK pn) (allocId st)) (.nameOwner sn (allocId st)) = none
  rw [lookupA_updateA_ne _ _ _ _ (by simp)]
  exact hks _

/-- A completely fresh registration of a component under a fresh host
allocates two IDs and appends the host row and then the component row. -/
theorem sqlGetId_component_fresh (st : SQLState) (o po : Nat) (cn pn : String)
    (hc : lookupA st.id_cache o = none)
    (hcp : lookupA st.id_cache po = none)
    (hkp : lookupA st.id_by_key (.nameK pn) = none)
    (hks : ∀ j, lookupA st.id_by_key (.nameOwner cn j) = none) :
    sqlGetId st (.component o cn (.host po pn))
      = (registerFresh (freshHost st po pn) (.component o cn (.host po pn)) (.nameOwner cn (allocId st)) cn none (some (allocId st)) none,
         allocId (freshHost st po pn)) := by
  rw [sqlGetId_component_eq st o cn _ hc, sqlGetId_host_miss st po pn hcp hkp]
  dsimp only
  refine finishKeyed_miss _ _ _ _ _ _ _ ?_
  show lookupA (updateA st.id_by_key (.nameK pn) (allocId st)) (.nameOwner cn (allocId st)) = none
  rw [lookupA_updateA_ne _ _ _ _ (by simp)]
  exact hks _

/-- A completely fresh registration of a connection between two fresh hosts
allocates three IDs and appends the two host rows and the connection row. -/
theorem sqlGetId_connection_fresh (st : SQLState) (o po1 po2 : Nat) (ln pn1 pn2 : String)
    (hpo : po1 ≠ po2) (hpn : pn1 ≠ pn2)
    (hc : lookupA st.id_cache o = none)
    (hc1 : lookupA st.id_cache po1 = none)
    (hc2 : lookupA st.id_cache po2 = none)
    (hk1 : lookupA st.id_by_key (.nameK pn1) = none)
    (hk2 : lookupA st.id_by_key (.nameK pn2) = none)
    (hpk : ∀ a b, lookupA st.id_by_key (.pairK a b) = none) :
    sqlGetId st (.connection o ln (.host po1 pn1) (.host po2 pn2))
      = (registerFresh (freshHost (freshHost st po1 pn1) po2 pn2) (.connection o ln (.host po1 pn1) (.host po2 pn2)) (.pairK (allocId st) (allocId (freshHost st po1 pn1))) ln none (some (allocId st)) (some (allocId (freshHost st po1 pn1))),
         allocId (freshHost (freshHost st po1 pn1) po2 pn2)) := by
  rw [sqlGetId_connection_eq st o ln _ _ hc, sqlGetId_host_miss st po1 pn1 hc1 hk1]
  dsimp only
  rw [sqlGetId_host_miss (freshHost st po1 pn1) po2 pn2 (by rw [show (freshHost st po1 pn1).id_cache = updateA st.id_cache po1 (allocId st) from rfl, lookupA_updateA_ne _ _ _ _ hpo]; exact hc2) (by rw [show (freshHost st po1 pn1).id_by_key = updateA st.id_by_key (.nameK pn1) (allocId st) from rfl, lookupA_updateA_ne _ _ _ _ (by simp [hpn])]; exact hk2)]
  dsimp only
  refine finishKeyed_miss _ _ _ _ _ _ _ ?_
  show lookupA (updateA (updateA st.id_by_key (.nameK pn1) (allocId st)) (.nameK pn2) (allocId (freshHost st po1 pn1))) (.pairK (allocId st) (allocId (freshHost st po1 pn1))) = none
  rw [lookupA_updateA_ne _ _ _ _ (by simp), lookupA_updateA_ne _ _ _ _ (by simp)]
  exact hpk _ _

/-- `_fill_cache` never touches the object cache, the stored rows or the
free counter. -/
theorem reloadAcc_frame (rows : List EntityRow) (st st' : SQLState)
    (h : reloadAcc st rows = some st') :
    st'.id_cache = st.id_cache ∧ st'.rows = st.rows ∧ st'.free_cache_id = st.free_cache_id := by
  induction rows generalizing st with
  | nil =>
    simp only [reloadAcc, Option.some.injEq] at h
    subst h
    exact ⟨rfl, rfl, rfl⟩
  | cons r t ih =>
    simp only [reloadAcc] at h
    cases hk : reconstructKey r with
    | none => rw [hk] at h; cases h
    | some k =>
      rw [hk] at h
      exact ih { st with id_by_key := updateA st.id_by_key k r.rid, entity_cache := updateA st.entity_cache r.rid none } h

/-- After `_fill_cache`, the ID stored for a key is that of the last row
reconstructing to it, else whatever the accumulator already held. -/
theorem reloadAcc_lookup (rows : List EntityRow) (st st' : SQLState)
    (h : reloadAcc st rows = some st') (k : DBKey) :
    lookupA st'.id_by_key k
      = match lastRowId rows k with
        | some j => some j
        | none => lookupA st.id_by_key k := by
  induction rows generalizing st with
  | nil =>
    simp only [reloadAcc, Option.some.injEq] at h
    subst h
    rfl
  | cons r t ih =>
    simp only [reloadAcc] at h
    cases hk : reconstructKey r with
    | none => rw [hk] at h; cases h
    | some k0 =>
      rw [hk] at h
      rw [ih { st with id_by_key := updateA st.id_by_key k0 r.rid, entity_cache := updateA st.entity_cache r.rid none } h]
      simp only [lastRowId, hk]
      cases hl : lastRowId t k with
      | some j => rfl
      | none =>
        by_cases hkk : k0 = k
        · subst hkk
          simp [lookupA_updateA]
        · simp [hkk, lookupA_updateA_ne _ _ _ _ hkk]

/-- Appending one row: its key wins over all earlier rows. -/
theorem lastRowId_append_single (l : List EntityRow) (r : EntityRow) (k : DBKey) :
    lastRowId (l ++ [r]) k
      = if reconstructKey r = some k then some r.rid else lastRowId l k := by
  induction l with
  | nil =>
    show lastRowId [r] k = _
    simp only [lastRowId]
  | cons a t ih =>
    simp only [List.cons_append, lastRowId, List.append_eq, ih]
    by_cases hr : reconstructKey r = some k
    · rw [if_pos hr, if_pos hr]
    · rw [if_neg hr, if_neg hr]

/-- Appending two rows: the later row's key wins. -/
theorem lastRowId_append_two (l : List EntityRow) (r1 r2 : EntityRow) (k : DBKey) :
    lastRowId (l ++ [r1, r2]) k
      = if reconstructKey r2 = some k then some r2.rid
        else if reconstructKey r1 = some k then some r1.rid else lastRowId l k := by
  rw [show l ++ [r1, r2] = (l ++ [r1]) ++ [r2] from (List.append_assoc l [r1] [r2]).symm,
    lastRowId_append_single, lastRowId_append_single]

/-- Appending three rows: the latest matching row's key wins. -/
theorem lastRowId_append_three (l : List EntityRow) (r1 r2 r3 : EntityRow) (k : DBKey) :
    lastRowId (l ++ [r1, r2, r3]) k
      = if reconstructKey r3 = some k then some r3.rid
        else if reconstructKey r2 = some k then some r2.rid
        else if reconstructKey r1 = some k then some r1.rid else lastRowId l k := by
  rw [show l ++ [r1, r2, r3] = (l ++ [r1, r2]) ++ [r3] from (List.append_assoc l [r1, r2] [r3]).symm,
    lastRowId_append_single, lastRowId_append_two]

/-- A restarted database has an empty object cache. -/
theorem reloadDB_id_cache (rows : List EntityRow) (st2 : SQLState)
    (h : reloadDB rows = some st2) : st2.id_cache = [] :=
  (reloadAcc_frame rows _ _ h).1

/-- A restarted database keys each structural key to the last row that
persisted it. -/
theorem reloadDB_key (rows : List EntityRow) (st2 : SQLState)
    (h : reloadDB rows = some st2) (k : DBKey) (j : Nat)
    (hl : lastRowId rows k = some j) :
    lookupA st2.id_by_key k = some j := by
  have hx := reloadAcc_lookup rows _ _ h k
  rw [hl] at hx
  exact hx

/-- The ID a key hit returns, without the state. -/
theorem finishKeyed_snd_hit (st : SQLState) (e : DBEntity) (key : DBKey) (sn : String)
    (ln : Option String) (src tgt : Option Nat) (i : Nat)
    (h : lookupA st.id_by_key key = some i) :
    (finishKeyed st e key sn ln src tgt).2 = i := by
  rw [finishKeyed_hit st e key sn ln src tgt i h]

/-- Restart determinism for hosts: registering a fresh host, reloading the
persisted rows, and registering any object with the same long name yields
the same ID. -/
theorem sqlRestart_host (st : SQLState) (o : Nat) (ln : String)
    (hc : lookupA st.id_cache o = none)
    (hk : lookupA st.id_by_key (.nameK ln) = none)
    (st2 : SQLState)
    (hre : reloadDB (sqlGetId st (.host o ln)).1.rows = some st2)
    (o2 : Nat) :
    (sqlGetId st2 (.host o2 ln)).2 = (sqlGetId st (.host o ln)).2 := by
  rw [sqlGetId_host_miss st o ln hc hk] at hre
  have hid := reloadDB_id_cache _ _ hre
  have hkey : lookupA st2.id_by_key (.nameK ln) = some (allocId st) := by
    refine reloadDB_key _ _ hre _ _ ?_
    show lastRowId (st.rows ++ [⟨allocId st, ln, none, none, none, "node"⟩]) (.nameK ln) = some (allocId st)
    rw [lastRowId_append_single, if_pos (show reconstructKey (⟨allocId st, ln, none, none, none, "node"⟩ : EntityRow) = some (DBKey.nameK ln) from rfl)]
  rw [sqlGetId_host_miss st o ln hc hk,
    sqlGetId_host_hit st2 o2 ln (allocId st) (by rw [hid]; rfl) hkey]

/-- Restart determinism for services: a fresh service under a fresh host,
after reload, resolves any structurally equal service to the same ID. -/
theorem sqlRestart_service (st : SQLState) (o po : Nat) (sn ln pn : String)
    (hc : lookupA st.id_cache o = none)
    (hcp : lookupA st.id_cache po = none)
    (hkp : lookupA st.id_by_key (.nameK pn) = none)
    (hks : ∀ j, lookupA st.id_by_key (.nameOwner sn j) = none)
    (st2 : SQLState)
    (hre : reloadDB (sqlGetId st (.service o sn ln (.host po pn))).1.rows = some st2)
    (o2 po2 : Nat) (ln2 : String) :
    (sqlGetId st2 (.service o2 sn ln2 (.host po2 pn))).2
      = (sqlGetId st (.service o sn ln (.host po pn))).2 := by
  rw [sqlGetId_service_fresh st o po sn ln pn hc hcp hkp hks] at hre
  have hid := reloadDB_id_cache _ _ hre
  have hkeyP : lookupA st2.id_by_key (.nameK pn) = some (allocId st) := by
    refine reloadDB_key _ _ hre _ _ ?_
    show lastRowId ((st.rows ++ [⟨allocId st, pn, none, none, none, "node"⟩]) ++ [⟨allocId (freshHost st po pn), sn, some (allocId st), none, some ln, "service"⟩]) (.nameK pn) = some (allocId st)
    rw [lastRowId_append_single, if_neg (by simp [reconstructKey]),
      lastRowId_append_single, if_pos (show reconstructKey (⟨allocId st, pn, none, none, none, "node"⟩ : EntityRow) = some (DBKey.nameK pn) from rfl)]
  have hkeyS : lookupA st2.id_by_key (.nameOwner sn (allocId st)) = some (allocId (freshHost st po pn)) := by
    refine reloadDB_key _ _ hre _ _ ?_
    show lastRowId ((st.rows ++ [⟨allocId st, pn, none, none, none, "node"⟩]) ++ [⟨allocId (freshHost st po pn), sn, some (allocId st), none, some ln, "service"⟩]) (.nameOwner sn (allocId st)) = some (allocId (freshHost st po pn))
    rw [lastRowId_append_single, if_pos (show reconstructKey (⟨allocId (freshHost st po pn), sn, some (allocId st), none, some ln, "service"⟩ : EntityRow) = some (DBKey.nameOwner sn (allocId st)) from rfl)]
  rw [sqlGetId_service_fresh st o po sn ln pn hc hcp hkp hks,
    sqlGetId_service_eq st2 o2 sn ln2 _ (by rw [hid]; rfl),
    sqlGetId_host_hit st2 po2 pn (allocId st) (by rw [hid]; rfl) hkeyP]
  dsimp only
  exact finishKeyed_snd_hit _ _ _ _ _ _ _ _ hkeyS

/-- Restart determinism for components: a fresh component under a fresh
host, after reload, resolves any structurally equal component to the same
ID. -/
theorem sqlRestart_component (st : SQLState) (o po : Nat) (cn pn : String)
    (hc : lookupA st.id_cache o = none)
    (hcp : lookupA st.id_cache po = none)
    (hkp : lookupA st.id_by_key (.nameK pn) = none)
    (hks : ∀ j, lookupA st.id_by_key (.nameOwner cn j) = none)
    (st2 : SQLState)
    (hre : reloadDB (sqlGetId st (.component o cn (.host po pn))).1.rows = some st2)
    (o2 po2 : Nat) :
    (sqlGetId st2 (.component o2 cn (.host po2 pn))).2
      = (sqlGetId st (.component o cn (.host po pn))).2 := by
  rw [sqlGetId_component_fresh st o po cn pn hc hcp hkp hks] at hre
  have hid := reloadDB_id_cache _ _ hre
  have hkeyP : lookupA st2.id_by_key (.nameK pn) = some (allocId st) := by
    refine reloadDB_key _ _ hre _ _ ?_
    show lastRowId ((st.rows ++ [⟨allocId st, pn, none, none, none, "node"⟩]) ++ [⟨allocId (freshHost st po pn), cn, some (allocId st), none, none, "component"⟩]) (.nameK pn) = some (allocId st)
    rw [lastRowId_append_single, if_neg (by simp [reconstructKey]),
      lastRowId_append_single, if_pos (show reconstructKey (⟨allocId st, pn, none, none, none, "node"⟩ : EntityRow) = some (DBKey.nameK pn) from rfl)]
  have hkeyC : lookupA st2.id_by_key (.nameOwner cn (allocId st)) = some (allocId (freshHost st po pn)) := by
    refine reloadDB_key _ _ hre _ _ ?_
    show lastRowId ((st.rows ++ [⟨allocId st, pn, none, none, none, "node"⟩]) ++ [⟨allocId (freshHost st po pn), cn, some (allocId st), none, none, "component"⟩]) (.nameOwner cn (allocId st)) = some (allocId (freshHost st po pn))
    rw [lastRowId_append_single, if_pos (show reconstructKey (⟨allocId (freshHost st po pn), cn, some (allocId st), none, none, "component"⟩ : EntityRow) = some (DBKey.nameOwner cn (allocId st)) from rfl)]
  rw [sqlGetId_component_fresh st o po cn pn hc hcp hkp hks,
    sqlGetId_component_eq st2 o2 cn _ (by rw [hid]; rfl),
    sqlGetId_host_hit st2 po2 pn (allocId st) (by rw [hid]; rfl) hkeyP]
  dsimp only
  exact finishKeyed_snd_hit _ _ _ _ _ _ _ _ hkeyC

/-- Restart determinism for connections: a fresh connection between two
fresh hosts, after reload, resolves any connection between structurally
equal hosts to the same ID. -/
theorem sqlRestart_connection (st : SQLState) (o po1 po2 : Nat) (ln pn1 pn2 : String)
    (hpo : po1 ≠ po2) (hpn : pn1 ≠ pn2)
    (hc : lookupA st.id_cache o = none)
    (hc1 : lookupA st.id_cache po1 = none)
    (hc2 : lookupA st.id_cache po2 = none)
    (hk1 : lookupA st.id_by_key (.nameK pn1) = none)
    (hk2 : lookupA st.id_by_key (.nameK pn2) = none)
    (hpk : ∀ a b, lookupA st.id_by_key (.pairK a b) = none)
    (st2 : SQLState)
    (hre : reloadDB (sqlGetId st (.connection o ln (.host po1 pn1) (.host po2 pn2))).1.rows = some st2)
    (o2 q1 q2 : Nat) (ln2 : String) (hq : q1 ≠ q2) :
    (sqlGetId st2 (.connection o2 ln2 (.host q1 pn1) (.host q2 pn2))).2
      = (sqlGetId st (.connection o ln (.host po1 pn1) (.host po2 pn2))).2 := by
  rw [sqlGetId_connection_fresh st o po1 po2 ln pn1 pn2 hpo hpn hc hc1 hc2 hk1 hk2 hpk] at hre
  have hid := reloadDB_id_cache _ _ hre
  have hkey1 : lookupA st2.id_by_key (.nameK pn1) = some (allocId st) := by
    refine reloadDB_key _ _ hre _ _ ?_
    show lastRowId (((st.rows ++ [⟨allocId st, pn1, none, none, none, "node"⟩]) ++ [⟨allocId (freshHost st po1 pn1), pn2, none, none, none, "node"⟩]) ++ [⟨allocId (freshHost (freshHost st po1 pn1) po2 pn2), ln, some (allocId st), some (allocId (freshHost st po1 pn1)), none, "connection"⟩]) (.nameK pn1) = some (allocId st)
    rw [lastRowId_append_single, if_neg (by simp [reconstructKey]),
      lastRowId_append_single, if_neg (by simp [reconstructKey, hpn.symm]),
      lastRowId_append_single, if_pos (show reconstructKey (⟨allocId st, pn1, none, none, none, "node"⟩ : EntityRow) = some (DBKey.nameK pn1) from rfl)]
  have hkey2 : lookupA st2.id_by_key (.nameK pn2) = some (allocId (freshHost st po1 pn1)) := by
    refine reloadDB_key _ _ hre _ _ ?_
    show lastRowId (((st.rows ++ [⟨allocId st, pn1, none, none, none, "node"⟩]) ++ [⟨allocId (freshHost st po1 pn1), pn2, none, none, none, "node"⟩]) ++ [⟨allocId (freshHost (freshHost st po1 pn1) po2 pn2), ln, some (allocId st), some (allocId (freshHost st po1 pn1)), none, "connection"⟩]) (.nameK pn2) = some (allocId (freshHost st po1 pn1))
    rw [lastRowId_append_single, if_neg (by simp [reconstructKey]),
      lastRowId_append_single, if_pos (show reconstructKey (⟨allocId (freshHost st po1 pn1), pn2, none, none, none, "node"⟩ : EntityRow) = some (DBKey.nameK pn2) from rfl)]
  have hkeyC : lookupA st2.id_by_key (.pairK (allocId st) (allocId (freshHost st po1 pn1))) = some (allocId (freshHost (freshHost st po1 pn1) po2 pn2)) := by
    refine reloadDB_key _ _ hre _ _ ?_
    show lastRowId (((st.rows ++ [⟨allocId st, pn1, none, none, none, "node"⟩]) ++ [⟨allocId (freshHost st po1 pn1), pn2, none, none, none, "node"⟩]) ++ [⟨allocId (freshHost (freshHost st po1 pn1) po2 pn2), ln, some (allocId st), some (allocId (freshHost st po1 pn1)), none, "connection"⟩]) (.pairK (allocId st) (allocId (freshHost st po1 pn1))) = some (allocId (freshHost (freshHost st po1 pn1) po2 pn2))
    rw [lastRowId_append_single, if_pos (show reconstructKey (⟨allocId (freshHost (freshHost st po1 pn1) po2 pn2), ln, some (allocId st), some (allocId (freshHost st po1 pn1)), none, "connection"⟩ : EntityRow) = some (DBKey.pairK (allocId st) (allocId (freshHost st po1 pn1))) from rfl)]
  rw [sqlGetId_connection_fresh st o po1 po2 ln pn1 pn2 hpo hpn hc hc1 hc2 hk1 hk2 hpk,
    sqlGetId_connection_eq st2 o2 ln2 _ _ (by rw [hid]; rfl),
    sqlGetId_host_hit st2 q1 pn1 (allocId st) (by rw [hid]; rfl) hkey1]
  dsimp only
  rw [sqlGetId_host_hit { st2 with id_cache := updateA st2.id_cache q1 (allocId st), entity_cache := updateA st2.entity_cache (allocId st) (some (.host q1 pn1)) } q2 pn2 (allocId (freshHost st po1 pn1)) (by show lookupA (updateA st2.id_cache q1 (allocId st)) q2 = none; rw [lookupA_updateA_ne _ _ _ _ hq, hid]; rfl) hkey2]
  dsimp only
  exact finishKeyed_snd_hit _ _ _ _ _ _ _ _ hkeyC

/-- C8: `SQLDatabase.get_id` is deterministic and content-addressed via
structural keys. (1) Calling it again on the state a call produced returns
the same ID and changes nothing. (2) Registering a new object whose
structural key — host long name, service `(name, parent ID)`, component
`(name, owner ID)`, connection `(source ID, target ID)` — is already stored
returns the pre-existing ID and appends neither a row nor a key (idempotent
registration). (3) Registering fresh structural entities, reloading a
database from the persisted rows, and registering structurally equal
entities with different object identities reproduces the same IDs. -/
theorem C8_get_id_content_addressed :
    (∀ (st : SQLState) (e : DBEntity), sqlGetId (sqlGetId st e).1 e = sqlGetId st e) ∧
    (∀ (st : SQLState) (o : Nat) (ln : String) (i : Nat),
      lookupA st.id_cache o = none →
      lookupA st.id_by_key (.nameK ln) = some i →
      (sqlGetId st (.host o ln)).2 = i ∧
      (sqlGetId st (.host o ln)).1.rows = st.rows ∧
      (sqlGetId st (.host o ln)).1.id_by_key = st.id_by_key) ∧
    (∀ (st : SQLState) (o : Nat) (sn ln : String) (p : DBEntity) (ip i : Nat),
      lookupA st.id_cache o = none →
      lookupA st.id_cache p.oid = some ip →
      lookupA st.id_by_key (.nameOwner sn ip) = some i →
      (sqlGetId st (.service o sn ln p)).2 = i ∧
      (sqlGetId st (.service o sn ln p)).1.rows = st.rows ∧
      (sqlGetId st (.service o sn ln p)).1.id_by_key = st.id_by_key) ∧
    (∀ (st : SQLState) (o : Nat) (cn : String) (w : DBEntity) (ip i : Nat),
      lookupA st.id_cache o = none →
      lookupA st.id_cache w.oid = some ip →
      lookupA st.id_by_key (.nameOwner cn ip) = some i →
      (sqlGetId st (.component o cn w)).2 = i ∧
      (sqlGetId st (.component o cn w)).1.rows = st.rows ∧
      (sqlGetId st (.component o cn w)).1.id_by_key = st.id_by_key) ∧
    (∀ (st : SQLState) (o : Nat) (ln : String) (s t : DBEntity) (si ti i : Nat),
      lookupA st.id_cache o = none →
      lookupA st.id_cache s.oid = some si →
      lookupA st.id_cache t.oid = some ti →
      lookupA st.id_by_key (.pairK si ti) = some i →
      (sqlGetId st (.connection o ln s t)).2 = i ∧
      (sqlGetId st (.connection o ln s t)).1.rows = st.rows ∧
      (sqlGetId st (.connection o ln s t)).1.id_by_key = st.id_by_key) ∧
    (∀ (st : SQLState) (o : Nat) (ln : String),
      lookupA st.id_cache o = none →
      lookupA st.id_by_key (.nameK ln) = none →
      ∀ st2 : SQLState, reloadDB (sqlGetId st (.host o ln)).1.rows = some st2 →
      ∀ o2 : Nat, (sqlGetId st2 (.host o2 ln)).2 = (sqlGetId st (.host o ln)).2) ∧
    (∀ (st : SQLState) (o po : Nat) (sn ln pn : String),
      lookupA st.id_cache o = none →
      lookupA st.id_cache po = none →
      lookupA st.id_by_key (.nameK pn) = none →
      (∀ j, lookupA st.id_by_key (.nameOwner sn j) = none) →
      ∀ st2 : SQLState, reloadDB (sqlGetId st (.service o sn ln (.host po pn))).1.rows = some st2 →
      ∀ (o2 po2 : Nat) (ln2 : String),
        (sqlGetId st2 (.service o2 sn ln2 (.host po2 pn))).2
          = (sqlGetId st (.service o sn ln (.host po pn))).2) ∧
    (∀ (st : SQLState) (o po : Nat) (cn pn : String),
      lookupA st.id_cache o = none →
      lookupA st.id_cache po = none →
      lookupA st.id_by_key (.nameK pn) = none →
      (∀ j, lookupA st.id_by_key (.nameOwner cn j) = none) →
      ∀ st2 : SQLState, reloadDB (sqlGetId st (.component o cn (.host po pn))).1.rows = some st2 →
      ∀ o2 po2 : Nat,
        (sqlGetId st2 (.component o2 cn (.host po2 pn))).2
          = (sqlGetId st (.component o cn (.host po pn))).2) ∧
    (∀ (st : SQLState) (o po1 po2 : Nat) (ln pn1 pn2 : String),
      po1 ≠ po2 → pn1 ≠ pn2 →
      lookupA st.id_cache o = none →
      lookupA st.id_cache po1 = none →
      lookupA st.id_cache po2 = none →
      lookupA st.id_by_key (.nameK pn1) = none →
      lookupA st.id_by_key (.nameK pn2) = none →
      (∀ a b, lookupA st.id_by_key (.pairK a b) = none) →
      ∀ st2 : SQLState, reloadDB (sqlGetId st (.connection o ln (.host po1 pn1) (.host po2 pn2))).1.rows = some st2 →
      ∀ (o2 q1 q2 : Nat) (ln2 : String), q1 ≠ q2 →
        (sqlGetId st2 (.connection o2 ln2 (.host q1 pn1) (.host q2 pn2))).2
          = (sqlGetId st (.connection o ln (.host po1 pn1) (.host po2 pn2))).2) := by
  refine ⟨sqlGetId_stable, ?_, ?_, ?_, ?_, ?_, ?_, ?_, ?_⟩
  · intro st o ln i hc hk
    rw [sqlGetId_host_hit st o ln i hc hk]
    exact ⟨rfl, rfl, rfl⟩
  · intro st o sn ln p ip i hc hp hk
    rw [sqlGetId_service_hit st o sn ln p ip i hc hp hk]
    exact ⟨rfl, rfl, rfl⟩
  · intro st o cn w ip i hc hp hk
    rw [sqlGetId_component_hit st o cn w ip i hc hp hk]
    exact ⟨rfl, rfl, rfl⟩
  · intro st o ln s t si ti i hc hs ht hk
    rw [sqlGetId_connection_hit st o ln s t si ti i hc hs ht hk]
    exact ⟨rfl, rfl, rfl⟩
  · intro st o ln hc hk st2 hre o2
    exact sqlRestart_host st o ln hc hk st2 hre o2
  · intro st o po sn ln pn hc hcp hkp hks st2 hre o2 po2 ln2
    exact sqlRestart_service st o po sn ln pn hc hcp hkp hks st2 hre o2 po2 ln2
  · intro st o po cn pn hc hcp hkp hks st2 hre o2 po2
    exact sqlRestart_component st o po cn pn hc hcp hkp hks st2 hre o2 po2
  · intro st o po1 po2 ln pn1 pn2 hpo hpn hc hc1 hc2 hk1 hk2 hpk st2 hre o2 q1 q2 ln2 hq
    exact sqlRestart_connection st o po1 po2 ln pn1 pn2 hpo hpn hc hc1 hc2 hk1 hk2 hpk st2 hre o2 q1 q2 ln2 hq

/-- Witness for C8 at a concrete input: a host registered in an empty
database, reloaded from its one persisted row, resolves a different object
with the same long name to the same ID. -/
theorem C8_get_id_content_addressed_witness :
    (sqlGetId (⟨[(.nameK "Backend", 1)], [], [(1, none)], 1, [⟨1, "Backend", none, none, none, "node"⟩]⟩ : SQLState) (.host 9 "Backend")).2
      = (sqlGetId (⟨[], [], [], 1, []⟩ : SQLState) (.host 5 "Backend")).2 :=
  C8_get_id_content_addressed.2.2.2.2.2.1 ⟨[], [], [], 1, []⟩ 5 "Backend" rfl rfl
    ⟨[(.nameK "Backend", 1)], [], [(1, none)], 1, [⟨1, "Backend", none, none, none, "node"⟩]⟩ rfl 9

end Tcsfw
